import Mathlib

/-!
Verification of the runtime configuration & credential hot-reload coordinator
of the storybox repository (src/app/api/dashboard.py, src/app/main.py).

The Python code is shallowly embedded: module-level mutable globals become an
explicit `AppState` record threaded through the handlers, exceptions become
explicit outcome values, and external collaborators (password verification,
Vertex re-initialization, model-cache refresh) are parameters collected in
`Deps`.  Python request values are modelled by `PyVal`; Python's `int()`,
`float()`, `str.lower()`, `str.strip()` and `json.loads` are modelled by
executable Lean functions over that type (ASCII subset of the Unicode
behaviour, which covers every value exercised here).
-/

namespace StoryBox

/-- A Python value as it can appear in the JSON request body handled by
`update_config` / `reset_stats` (dicts are modelled structurally by the
`Request` record below; the `value` field itself is never a dict in any
behaviour claimed about this program). -/
inductive PyVal where
  | none
  | bool (b : Bool)
  | int (n : Int)
  | float (q : Rat)
  | str (s : String)
  | list (xs : List Int)
deriving DecidableEq

/-- Python exception kinds that drive control flow in the embedded handlers. -/
inductive PyErr where
  | valueError (msg : String)
  | typeError (msg : String)
  | attributeError (msg : String)
deriving DecidableEq

/-- Python truthiness (`if not x`). -/
def pyTruthy : PyVal → Bool
  | .none => false
  | .bool b => b
  | .int n => n != 0
  | .float q => q != 0
  | .str s => s != ""
  | .list xs => !xs.isEmpty

/-- Value of one decimal digit character. -/
def digitVal (c : Char) : Nat := c.toNat - 48

/-- ASCII lowercase of one character. -/
def asciiLowerChar (c : Char) : Char :=
  if 'A' ≤ c ∧ c ≤ 'Z' then Char.ofNat (c.toNat + 32) else c

/-- Python `str.lower()` (ASCII subset, which covers the sentinel values
compared against "true"). -/
def pyLower (s : String) : String := String.mk (s.data.map asciiLowerChar)

/-- Python `str.strip()` (ASCII whitespace subset). -/
def pyStrip (s : String) : String :=
  String.mk (((s.data.dropWhile Char.isWhitespace).reverse.dropWhile Char.isWhitespace).reverse)

/-- Split a character list at every comma, keeping empty fragments, as
Python `str.split(",")` does. -/
def splitCommaGo : List Char → List (List Char)
  | [] => [[]]
  | ',' :: rest => [] :: splitCommaGo rest
  | c :: rest =>
    match splitCommaGo rest with
    | [] => [[c]]
    | g :: gs => (c :: g) :: gs

/-- Python `s.split(",")`. -/
def splitOnComma (s : String) : List String :=
  (splitCommaGo s.data).map String.mk

/-- Accumulating loop of `pyDigitPart`: digits with single underscores allowed
between digits, as in the Python integer-literal grammar. -/
def pyDigitGo : Nat → List Char → Option Nat
  | acc, [] => some acc
  | acc, c :: rest =>
    if c.isDigit then pyDigitGo (acc * 10 + digitVal c) rest
    else if c = '_' then
      match rest with
      | c2 :: rest2 => if c2.isDigit then pyDigitGo (acc * 10 + digitVal c2) rest2 else Option.none
      | [] => Option.none
    else Option.none

/-- Python `digitpart`: a nonempty digit run, single underscores permitted
between digits (`int("4_2") == 42`, `int("4__2")` raises). -/
def pyDigitPart : List Char → Option Nat
  | [] => Option.none
  | c :: rest => if c.isDigit then pyDigitGo (digitVal c) rest else Option.none

/-- Parse the body of a Python `int(...)` string after stripping whitespace:
optional sign followed by a digit part. -/
def pyIntOfStripped : List Char → Option Int
  | '+' :: rest => (pyDigitPart rest).map Int.ofNat
  | '-' :: rest => (pyDigitPart rest).map (fun n => -(Int.ofNat n))
  | cs => (pyDigitPart cs).map Int.ofNat

/-- Python `int(s)` for a string argument: strip whitespace, then parse an
optionally signed decimal integer; anything else raises `ValueError`. -/
def pyIntOfString (s : String) : Option Int :=
  pyIntOfStripped (pyStrip s).toList

/-- Truncation of a rational toward zero, as Python `int(float)` does. -/
def ratTrunc (q : Rat) : Int := Int.tdiv q.num (Int.ofNat q.den)

/-- Python built-in `int(x)`: numbers truncate, booleans coerce to 0/1,
strings parse or raise `ValueError`, other types raise `TypeError`. -/
def pyInt : PyVal → Except PyErr Int
  | .int n => .ok n
  | .bool b => .ok (if b then 1 else 0)
  | .float q => .ok (ratTrunc q)
  | .str s =>
    match pyIntOfString s with
    | some n => .ok n
    | Option.none => .error (.valueError ("invalid literal for int() with base 10: " ++ s))
  | .none => .error (.typeError "int() argument must be a string, a bytes-like object or a real number, not NoneType")
  | .list _ => .error (.typeError "int() argument must be a string, a bytes-like object or a real number, not list")

/-- Parse the fractional digits of a decimal literal into a rational. -/
def fracDigitsGo : Rat → Rat → List Char → Option (Rat × List Char)
  | acc, _scale, [] => some (acc, [])
  | acc, scale, c :: rest =>
    if c.isDigit then
      fracDigitsGo (acc + scale * (digitVal c : Rat)) (scale / 10) rest
    else some (acc, c :: rest)

/-- Parse a nonempty run of digits, returning the value and the rest. -/
def digitsRun : Nat → List Char → Option (Nat × List Char)
  | acc, [] => some (acc, [])
  | acc, c :: rest =>
    if c.isDigit then digitsRun (acc * 10 + digitVal c) rest else some (acc, c :: rest)

/-- Parse the body of a Python `float(...)` string after the optional sign:
`digits [. digits] [e|E [sign] digits]` (the `inf`/`nan` spellings are not
modelled; nothing in the repository feeds them). -/
def pyFloatBody (cs : List Char) : Option Rat :=
  let intPart : Option (Nat × List Char) :=
    match cs with
    | c :: rest => if c.isDigit then digitsRun (digitVal c) rest else Option.none
    | [] => Option.none
  match intPart with
  | Option.none => Option.none
  | some (ip, rest) =>
    let withFrac : Option (Rat × List Char) :=
      match rest with
      | '.' :: rest2 => fracDigitsGo (Int.ofNat ip : Rat) (mkRat 1 10) rest2
      | _ => some ((Int.ofNat ip : Rat), rest)
    match withFrac with
    | Option.none => Option.none
    | some (base, rest3) =>
      match rest3 with
      | [] => some base
      | 'e' :: rest4 =>
        match rest4 with
        | '-' :: rest5 =>
          match digitsRun 0 rest5 with
          | some (e, []) => if rest5.isEmpty then Option.none else some (base / ((10 : Rat) ^ e))
          | _ => Option.none
        | '+' :: rest5 =>
          match digitsRun 0 rest5 with
          | some (e, []) => if rest5.isEmpty then Option.none else some (base * ((10 : Rat) ^ e))
          | _ => Option.none
        | _ =>
          match digitsRun 0 rest4 with
          | some (e, []) => if rest4.isEmpty then Option.none else some (base * ((10 : Rat) ^ e))
          | _ => Option.none
      | _ => Option.none

/-- Python `float(s)` for a string argument (decimal subset). -/
def pyFloatOfString (s : String) : Option Rat :=
  match (pyStrip s).toList with
  | '+' :: rest => pyFloatBody rest
  | '-' :: rest => (pyFloatBody rest).map Neg.neg
  | cs => pyFloatBody cs

/-- Python built-in `float(x)`. -/
def pyFloat : PyVal → Except PyErr Rat
  | .float q => .ok q
  | .int n => .ok (n : Rat)
  | .bool b => .ok (if b then 1 else 0)
  | .str s =>
    match pyFloatOfString s with
    | some q => .ok q
    | Option.none => .error (.valueError ("could not convert string to float: " ++ s))
  | .none => .error (.typeError "float() argument must be a string or a real number, not NoneType")
  | .list _ => .error (.typeError "float() argument must be a string or a real number, not list")

/-- A parsed JSON value, as returned by Python's `json.loads`. -/
inductive JsonVal where
  | null
  | bool (b : Bool)
  | num (q : Rat)
  | str (s : String)
  | arr (elems : List JsonVal)
  | obj (members : List (String × JsonVal))

/-- JSON whitespace skip. -/
def skipWs (cs : List Char) : List Char :=
  cs.dropWhile (fun c => c = ' ' ∨ c = '\t' ∨ c = '\n' ∨ c = '\r')

/-- Value of one hexadecimal digit character. -/
def hexVal (c : Char) : Option Nat :=
  if c.isDigit then some (c.toNat - 48)
  else if 'a' ≤ c ∧ c ≤ 'f' then some (c.toNat - 97 + 10)
  else if 'A' ≤ c ∧ c ≤ 'F' then some (c.toNat - 65 + 10)
  else Option.none

/-- Body of a JSON string literal (opening quote already consumed), with the
standard escapes; fuel-recursive. -/
def jStringGo : Nat → List Char → List Char → Option (String × List Char)
  | 0, _, _ => Option.none
  | _ + 1, _, [] => Option.none
  | _ + 1, acc, '"' :: rest => some (String.mk acc.reverse, rest)
  | fuel + 1, acc, '\\' :: rest =>
    match rest with
    | '"' :: r => jStringGo fuel ('"' :: acc) r
    | '\\' :: r => jStringGo fuel ('\\' :: acc) r
    | '/' :: r => jStringGo fuel ('/' :: acc) r
    | 'b' :: r => jStringGo fuel ((Char.ofNat 8) :: acc) r
    | 'f' :: r => jStringGo fuel ((Char.ofNat 12) :: acc) r
    | 'n' :: r => jStringGo fuel ('\n' :: acc) r
    | 'r' :: r => jStringGo fuel ('\r' :: acc) r
    | 't' :: r => jStringGo fuel ('\t' :: acc) r
    | 'u' :: h1 :: h2 :: h3 :: h4 :: r =>
      match hexVal h1, hexVal h2, hexVal h3, hexVal h4 with
      | some a, some b, some c, some d =>
        jStringGo fuel ((Char.ofNat (((a * 16 + b) * 16 + c) * 16 + d)) :: acc) r
      | _, _, _, _ => Option.none
    | _ => Option.none
  | fuel + 1, acc, c :: rest => jStringGo fuel (c :: acc) rest

/-- JSON string literal after the opening quote. -/
def jStringLit (cs : List Char) : Option (String × List Char) :=
  jStringGo (cs.length + 1) [] cs

/-- JSON unsigned integer part: `0` alone or a nonzero digit followed by
digits (strict grammar: leading zeros are rejected, as `json.loads` does). -/
def jIntPart : List Char → Option (Nat × List Char)
  | '0' :: rest => some (0, rest)
  | c :: rest => if c.isDigit then digitsRun (digitVal c) rest else Option.none
  | [] => Option.none

/-- JSON number literal: `-? int frac? exp?`, as a rational. -/
def jNumber (cs : List Char) : Option (Rat × List Char) :=
  let signed : Option (Bool × List Char) :=
    match cs with
    | '-' :: rest => some (true, rest)
    | rest => some (false, rest)
  match signed with
  | Option.none => Option.none
  | some (neg, cs1) =>
    match jIntPart cs1 with
    | Option.none => Option.none
    | some (ip, cs2) =>
      let withFrac : Option (Rat × List Char) :=
        match cs2 with
        | '.' :: c :: rest =>
          if c.isDigit then fracDigitsGo (Int.ofNat ip : Rat) (mkRat 1 10) (c :: rest)
          else Option.none
        | rest => some ((Int.ofNat ip : Rat), rest)
      match withFrac with
      | Option.none => Option.none
      | some (base, cs3) =>
        let withExp : Option (Rat × List Char) :=
          match cs3 with
          | 'e' :: '-' :: c :: rest =>
            if c.isDigit then (digitsRun (digitVal c) rest).map
                (fun p => (base / ((10 : Rat) ^ p.1), p.2))
            else Option.none
          | 'e' :: '+' :: c :: rest =>
            if c.isDigit then (digitsRun (digitVal c) rest).map
                (fun p => (base * ((10 : Rat) ^ p.1), p.2))
            else Option.none
          | 'e' :: c :: rest =>
            if c.isDigit then (digitsRun (digitVal c) rest).map
                (fun p => (base * ((10 : Rat) ^ p.1), p.2))
            else Option.none
          | 'E' :: '-' :: c :: rest =>
            if c.isDigit then (digitsRun (digitVal c) rest).map
                (fun p => (base / ((10 : Rat) ^ p.1), p.2))
            else Option.none
          | 'E' :: '+' :: c :: rest =>
            if c.isDigit then (digitsRun (digitVal c) rest).map
                (fun p => (base * ((10 : Rat) ^ p.1), p.2))
            else Option.none
          | 'E' :: c :: rest =>
            if c.isDigit then (digitsRun (digitVal c) rest).map
                (fun p => (base * ((10 : Rat) ^ p.1), p.2))
            else Option.none
          | rest => some (base, rest)
        withExp.map (fun p => (if neg then -p.1 else p.1, p.2))

mutual

/-- Recursive-descent parse of one JSON value; fuel-indexed. -/
def jVal : Nat → List Char → Option (JsonVal × List Char)
  | 0, _ => Option.none
  | fuel + 1, cs =>
    match skipWs cs with
    | '{' :: rest =>
      match skipWs rest with
      | '}' :: rest2 => some (JsonVal.obj [], rest2)
      | rest2 => (jMembers fuel rest2).map (fun p => (JsonVal.obj p.1, p.2))
    | '[' :: rest =>
      match skipWs rest with
      | ']' :: rest2 => some (JsonVal.arr [], rest2)
      | rest2 => (jElems fuel rest2).map (fun p => (JsonVal.arr p.1, p.2))
    | '"' :: rest => (jStringLit rest).map (fun p => (JsonVal.str p.1, p.2))
    | 'n' :: 'u' :: 'l' :: 'l' :: rest => some (JsonVal.null, rest)
    | 't' :: 'r' :: 'u' :: 'e' :: rest => some (JsonVal.bool true, rest)
    | 'f' :: 'a' :: 'l' :: 's' :: 'e' :: rest => some (JsonVal.bool false, rest)
    | rest => (jNumber rest).map (fun p => (JsonVal.num p.1, p.2))

/-- Object members after the opening brace (at least one member). -/
def jMembers : Nat → List Char → Option (List (String × JsonVal) × List Char)
  | 0, _ => Option.none
  | fuel + 1, cs =>
    match skipWs cs with
    | '"' :: rest =>
      match jStringLit rest with
      | some (k, rest2) =>
        match skipWs rest2 with
        | ':' :: rest3 =>
          match jVal fuel rest3 with
          | some (v, rest4) =>
            match skipWs rest4 with
            | ',' :: rest5 => (jMembers fuel rest5).map (fun p => ((k, v) :: p.1, p.2))
            | '}' :: rest5 => some ([(k, v)], rest5)
            | _ => Option.none
          | Option.none => Option.none
        | _ => Option.none
      | Option.none => Option.none
    | _ => Option.none

/-- Array elements after the opening bracket (at least one element). -/
def jElems : Nat → List Char → Option (List JsonVal × List Char)
  | 0, _ => Option.none
  | fuel + 1, cs =>
    match jVal fuel cs with
    | some (v, rest) =>
      match skipWs rest with
      | ',' :: rest2 => (jElems fuel rest2).map (fun p => (v :: p.1, p.2))
      | ']' :: rest2 => some ([v], rest2)
      | _ => Option.none
    | Option.none => Option.none

end

/-- Python `json.loads(s)`: parse the whole string as one JSON value
(`none` models a raised `json.JSONDecodeError`). -/
def json_loads (s : String) : Option JsonVal :=
  let cs := s.toList
  match jVal (cs.length + 2) cs with
  | some (v, rest) => if (skipWs rest).isEmpty then some v else Option.none
  | Option.none => Option.none

/-- A parsed JSON object: the member list of a `JsonVal.obj`. -/
def JsonObj := List (String × JsonVal)

/-- Modelled from the spec: `parse_multiple_json_credentials` lives in
`app/vertex/credentials_manager.py`, which is not under `src/`.  Spec §4.2:
parsing accepts "a single JSON object, or a comma-separated list of JSON
objects (split-then-parse, each fragment independently validated as JSON)";
if the blob parses as such a list the parsed objects are returned, otherwise
the result is the empty (falsy) list. -/
def parse_multiple_json_credentials (s : String) : List JsonObj :=
  let parsed := (splitOnComma s).map json_loads
  if parsed.all (fun p => match p with | some (JsonVal.obj _) => true | _ => false) then
    parsed.foldr
      (fun p acc => match p with | some (JsonVal.obj m) => m :: acc | _ => acc) []
  else []

/-- Modelled from the spec: provenance tag on credential entries (§3),
distinguishing entries loaded from the environment JSON blob from entries of
any other source (`credentials_manager.py` is not under `src/`). -/
inductive Provenance where
  | environmentBlob
  | other
deriving DecidableEq

/-- Modelled from the spec: `CredentialEntry` (§3) — a service-account
descriptor (kept abstract as its parsed JSON object) plus its provenance tag. -/
structure CredentialEntry where
  payload : JsonObj
  provenance : Provenance

/-- Modelled from the spec: the `CredentialPool` held by `CredentialManager`
(§4.2); entries tagged by provenance, selective reload supported. -/
structure CredentialManager where
  credentials : List CredentialEntry

/-- Modelled from the spec: `total_count()` telemetry (§4.2). -/
def CredentialManager.get_total_credentials (cm : CredentialManager) : Nat :=
  cm.credentials.length

/-- Modelled from the spec: the selective clear (§4.2) — "remove all entries
whose provenance is EnvironmentBlob"; entries of other provenance are
untouched.  Returns the new pool and the number of entries removed. -/
def CredentialManager.clear_json_string_credentials (cm : CredentialManager) :
    CredentialManager × Nat :=
  let kept := cm.credentials.filter (fun e => e.provenance ≠ Provenance.environmentBlob)
  (⟨kept⟩, cm.credentials.length - kept.length)

/-- Modelled from the spec: add the newly parsed blob entries tagged
`EnvironmentBlob` (§4.2); returns the new pool and the loaded count. -/
def CredentialManager.load_credentials_from_json_list (cm : CredentialManager)
    (objs : List JsonObj) : CredentialManager × Nat :=
  (⟨cm.credentials ++ objs.map (fun o => ⟨o, Provenance.environmentBlob⟩)⟩, objs.length)

/-- Modelled from the spec: load a single parsed JSON credential, tagged
`EnvironmentBlob`; succeeds exactly when the value is a JSON object (§4.2:
a blob that "parses as exactly one object" loads one entry). -/
def CredentialManager.add_credential_from_json (cm : CredentialManager) (j : JsonVal) :
    CredentialManager × Bool :=
  match j with
  | JsonVal.obj o => (⟨cm.credentials ++ [⟨o, Provenance.environmentBlob⟩]⟩, true)
  | _ => (cm, false)

/-- The mutable fields of `app.config.settings` read or written by the code
under `src/` (the settings module itself holds plain module globals; the
`search` dict is flattened into its two keys). -/
structure Settings where
  MAX_REQUESTS_PER_MINUTE : Int
  MAX_REQUESTS_PER_DAY_PER_IP : Int
  FAKE_STREAMING : Bool
  ENABLE_VERTEX_EXPRESS : Bool
  VERTEX_EXPRESS_API_KEY : String
  FAKE_STREAMING_INTERVAL : Rat
  RANDOM_STRING : Bool
  RANDOM_STRING_LENGTH : Int
  search_mode : Bool
  search_prompt : String
  CONCURRENT_REQUESTS : Int
  INCREASE_CONCURRENT_ON_FAILURE : Int
  MAX_CONCURRENT_REQUESTS : Int
  ENABLE_VERTEX : Bool
  GOOGLE_CREDENTIALS_JSON : String
  MAX_RETRY_NUM : Int
  MAX_EMPTY_RESPONSES : Int
deriving DecidableEq

/-- The fields of `app.vertex.config` touched by `update_config`:
the express-key list, the mirrored fake-streaming flag, and a record of the
`vertex_config.update_config(key, value)` calls made into that namespace. -/
structure VertexAppConfig where
  VERTEX_EXPRESS_API_KEY_VAL : List String
  FAKE_STREAMING_ENABLED : Bool
  configUpdates : List (String × PyVal)
deriving DecidableEq

/-- External response-cache manager: only `cur_cache_num` and the
`clean_expired()` call are visible to the code under `src/`. -/
structure CacheManager where
  cur_cache_num : Nat
deriving DecidableEq

/-- External active-requests tracker: `active_requests` is a dict of tasks;
only each task's `done()` flag is observed. -/
structure ActiveRequestsManager where
  tasks : List Bool
deriving DecidableEq

/-- The module-level globals of `app/api/dashboard.py`, set by
`init_dashboard_router`. -/
structure DashboardGlobals where
  response_cache_manager : Option CacheManager
  active_requests_manager : Option ActiveRequestsManager
  credential_manager : Option CredentialManager

/-- The whole mutable process state visible to the embedded handlers. -/
structure AppState where
  settings : Settings
  appConfig : VertexAppConfig
  dash : DashboardGlobals
  /-- `credential_manager` global of `app/main.py`, also stored in
  `app.state.credential_manager`. -/
  mainCredentialManager : Option CredentialManager
  /-- Number of `reset_global_fallback_client()` invalidations performed. -/
  fallbackClientResets : Nat
  /-- Number of `save_settings()` persistence-hook calls performed. -/
  savedSettingsCount : Nat
  /-- Append-only log: `(level, message)` pairs. -/
  logs : List (String × String)

/-- The `log(level, msg)` collaborator: append one entry. -/
def log (st : AppState) (level msg : String) : AppState :=
  { st with logs := st.logs ++ [(level, msg)] }

/-- The `save_settings()` persistence hook (external collaborator): the only
observable here is that it was invoked. -/
def save_settings (st : AppState) : AppState :=
  { st with savedSettingsCount := st.savedSettingsCount + 1 }

/-- The `reset_global_fallback_client()` collaborator from
`app/vertex/vertex_ai_init.py` (not under `src/`): invalidates the shared
fallback client singleton. -/
def reset_global_fallback_client (st : AppState) : AppState :=
  { st with fallbackClientResets := st.fallbackClientResets + 1 }

/-- Outcome of an awaited external call that returns a boolean or raises. -/
inductive ExtOutcome where
  | okTrue
  | okFalse
  | raised (msg : String)
deriving DecidableEq

/-- The external collaborators of the handlers, fixed per request:
password verification, the `CredentialManager()` constructor, and the
outcomes of the awaited Vertex calls. -/
structure Deps where
  verify_web_password : String → Bool
  /-- Result of the external `CredentialManager()` constructor. -/
  newCredentialManager : CredentialManager
  /-- Outcome of `re_init_vertex_ai_function(credential_manager=...)`. -/
  init_vertex_ai : ExtOutcome
  /-- Outcome of `refresh_models_config_cache()` in the credentials branch. -/
  refresh_models_config_cache : ExtOutcome
  /-- Outcome of `refresh_models_config_cache()` in the express-key branch. -/
  refresh_models_after_express : ExtOutcome
  /-- `some msg` when `vertex_config.update_config(...)` raises. -/
  vertex_update_config_raises : Option String
  /-- Result of the startup `init_vertex_ai` in `lifespan` (spec §4.3: any
  exception during rebuild is caught and surfaced as a boolean). -/
  startup_init_vertex_ok : Bool

/-- The parsed JSON request body of the config endpoints: `dict.get` on the
three recognized keys, absent keys giving Python `None`. -/
structure Request where
  password : PyVal
  key : PyVal
  value : PyVal

/-- Body of an HTTP response: either the success JSON `{status, message}` or
the `detail` of a raised `HTTPException`. -/
inductive RespBody where
  | success (message : String)
  | failure (detail : String)
deriving DecidableEq

/-- An HTTP response as observed by the client. -/
structure HttpResponse where
  status : Nat
  body : RespBody
deriving DecidableEq

/-- Result of one `elif` branch of `update_config`: fall through to the final
`save_settings()` + success return, return early with a success message,
raise an `HTTPException`, or raise some other exception (handled by the
outer `except Exception` as a 500). -/
inductive BranchResult where
  | ok
  | retOk (message : String)
  | httpExc (status : Nat) (detail : String)
  | pyExc (msg : String)
deriving DecidableEq

/-- Rendering of a `PyVal` into an f-string hole, as `str(config_value)`. -/
def pyValToString : PyVal → String
  | .none => "None"
  | .bool b => if b then "True" else "False"
  | .int n => toString n
  | .float q => toString q
  | .str s => s
  | .list xs => toString xs

/-- One positive-integer branch of `update_config` — the repeated pattern
`try: value = int(config_value); if value <= 0: raise ValueError(boundMsg);
<assign>; log(...) except ValueError as e: raise HTTPException(422, ...)`
(dashboard.py:212-220 and its five structural copies).  A `TypeError` from
`int()` is not caught by the `except ValueError` and escapes to the outer
handler. -/
def intGtZeroBranch (setF : AppState → Int → AppState) (boundMsg logMsg : String)
    (st : AppState) (v : PyVal) : AppState × BranchResult :=
  match pyInt v with
  | .error (.valueError m) => (st, .httpExc 422 ("参数类型错误：" ++ m))
  | .error (.typeError m) => (st, .pyExc m)
  | .error (.attributeError m) => (st, .pyExc m)
  | .ok n =>
    if n ≤ 0 then (st, .httpExc 422 ("参数类型错误：" ++ boundMsg))
    else (log (setF st n) "info" (logMsg ++ toString n), .ok)

/-- One non-negative-integer branch of `update_config` — same pattern with the
bound `value < 0` (dashboard.py:333-341 and 450-458). -/
def intGeZeroBranch (setF : AppState → Int → AppState) (boundMsg logMsg : String)
    (st : AppState) (v : PyVal) : AppState × BranchResult :=
  match pyInt v with
  | .error (.valueError m) => (st, .httpExc 422 ("参数类型错误：" ++ m))
  | .error (.typeError m) => (st, .pyExc m)
  | .error (.attributeError m) => (st, .pyExc m)
  | .ok n =>
    if n < 0 then (st, .httpExc 422 ("参数类型错误：" ++ boundMsg))
    else (log (setF st n) "info" (logMsg ++ toString n), .ok)

/-- One plain boolean branch of `update_config` — `if not isinstance(v, bool):
raise HTTPException(422); <assign>; log(...)` (dashboard.py:247-251 and its
structural copies). -/
def boolSimpleBranch (setF : AppState → Bool → AppState) (logMsg : String)
    (st : AppState) (v : PyVal) : AppState × BranchResult :=
  match v with
  | .bool b => (log (setF st b) "info" (logMsg ++ pyValToString (.bool b)), .ok)
  | _ => (st, .httpExc 422 "参数类型错误：应为布尔值")

/-- The `fake_streaming` branch (dashboard.py:232-245): boolean check, assign,
then best-effort mirror into `app.vertex.config` where an exception from
`vertex_config.update_config` is caught and logged as a warning. -/
def fakeStreamingBranch (d : Deps) (st : AppState) (v : PyVal) : AppState × BranchResult :=
  match v with
  | .bool b =>
    let st := { st with settings := { st.settings with FAKE_STREAMING := b } }
    let st := log st "info" ("假流式请求已更新为：" ++ pyValToString (.bool b))
    let st := { st with appConfig := { st.appConfig with FAKE_STREAMING_ENABLED := b } }
    let st :=
      match d.vertex_update_config_raises with
      | some m => log st "warning" ("更新 Vertex 假流式设置时出错: " ++ m)
      | Option.none =>
        let st := { st with appConfig := { st.appConfig with
          configUpdates := st.appConfig.configUpdates ++ [("FAKE_STREAMING", PyVal.bool b)] } }
        log st "info" ("已同步更新 Vertex 中的假流式设置为：" ++ pyValToString (.bool b))
    (st, .ok)
  | _ => (st, .httpExc 422 "参数类型错误：应为布尔值")

/-- The `fake_streaming_interval` branch (dashboard.py:277-292): `float()`
parse with a `> 0` bound, then the same best-effort mirror into
`app.vertex.config`. -/
def fakeStreamingIntervalBranch (d : Deps) (st : AppState) (v : PyVal) :
    AppState × BranchResult :=
  match pyFloat v with
  | .error (.valueError m) => (st, .httpExc 422 ("参数类型错误：" ++ m))
  | .error (.typeError m) => (st, .pyExc m)
  | .error (.attributeError m) => (st, .pyExc m)
  | .ok q =>
    if q ≤ 0 then (st, .httpExc 422 "参数类型错误：假流式间隔必须大于0")
    else
      let st := { st with settings := { st.settings with FAKE_STREAMING_INTERVAL := q } }
      let st := log st "info" "假流式间隔已更新"
      let st :=
        match d.vertex_update_config_raises with
        | some m => log st "warning" ("更新 Vertex 假流式间隔设置时出错: " ++ m)
        | Option.none =>
          let st := { st with appConfig := { st.appConfig with
            configUpdates := st.appConfig.configUpdates ++ [("FAKE_STREAMING_INTERVAL", PyVal.float q)] } }
          log st "info" "已同步更新 Vertex 中的假流式间隔设置"
      (st, .ok)

/-- The `search_prompt` branch (dashboard.py:317-321). -/
def searchPromptBranch (st : AppState) (v : PyVal) : AppState × BranchResult :=
  match v with
  | .str s =>
    let st := { st with settings := { st.settings with search_prompt := s } }
    (log st "info" ("联网搜索提示已更新为：" ++ s), .ok)
  | _ => (st, .httpExc 422 "参数类型错误：应为字符串")

/-- The `vertex_express_api_key` branch (dashboard.py:253-275): string check;
empty or case-insensitive "true" is a no-op sentinel; otherwise store the raw
string, store the comma-split trimmed non-empty key list into
`app.vertex.config`, and best-effort refresh the model-config cache. -/
def vertexExpressApiKeyBranch (d : Deps) (st : AppState) (v : PyVal) :
    AppState × BranchResult :=
  match v with
  | .str s =>
    if s = "" ∨ pyLower s = "true" then
      (log st "info" "Vertex Express API Key 未更新，因为值为空或为 'true'", .ok)
    else
      let st := { st with settings := { st.settings with VERTEX_EXPRESS_API_KEY := s } }
      let keys := ((splitOnComma s).map pyStrip).filter (fun k => k ≠ "")
      let st := { st with appConfig := { st.appConfig with VERTEX_EXPRESS_API_KEY_VAL := keys } }
      let st := log st "info"
        ("Vertex Express API Key 已更新，共 " ++ toString keys.length ++ " 个有效密钥")
      let st :=
        match d.refresh_models_after_express with
        | .okTrue => log st "info" "更新 Express API Key 后成功刷新模型配置"
        | .okFalse => log st "warning" "更新 Express API Key 后刷新模型配置失败，将使用默认模型或现有缓存"
        | .raised m => log st "warning" ("尝试刷新模型配置时出错: " ++ m)
      (st, .ok)
  | _ => (st, .httpExc 422 "参数类型错误：应为字符串")

/-- `run_blocking_init_vertex` (dashboard.py:48-72): re-run `init_vertex_ai`
with the module-level `credential_manager`, creating a transient
`CredentialManager()` when that global is `None`; every exception is caught
and logged, so the function itself never raises. -/
def run_blocking_init_vertex (d : Deps) (st : AppState) : AppState :=
  match st.dash.credential_manager with
  | Option.none =>
    let st := log st "warning" "Credential Manager 不存在，将创建一个新的实例用于初始化"
    let temp := d.newCredentialManager
    let st := log st "info"
      ("临时 Credential Manager 已创建，包含 " ++ toString temp.get_total_credentials ++ " 个凭证")
    match d.init_vertex_ai with
    | .okTrue => log st "info" "异步重新执行 init_vertex_ai 成功，以响应 Google Credentials JSON 的更新。"
    | .okFalse => log st "warning" "异步重新执行 init_vertex_ai 失败或未完成。"
    | .raised m => log st "error" ("执行 run_blocking_init_vertex 时出错: " ++ m)
  | some cm =>
    let st := log st "info"
      ("使用现有 Credential Manager 进行初始化，当前有 " ++ toString cm.get_total_credentials ++ " 个凭证")
    match d.init_vertex_ai with
    | .okTrue => log st "info" "异步重新执行 init_vertex_ai 成功，以响应 Google Credentials JSON 的更新。"
    | .okFalse => log st "warning" "异步重新执行 init_vertex_ai 失败或未完成。"
    | .raised m => log st "error" ("执行 run_blocking_init_vertex 时出错: " ++ m)

/-- The selective credential reload of the `google_credentials_json` branch
(dashboard.py:390-419): when the module-level `credential_manager` is
initialized, clear the entries previously loaded from the JSON string and
load the newly parsed ones; otherwise only log a warning. -/
def googleCredsReloadPool (st : AppState) (s : String) : AppState :=
  match st.dash.credential_manager with
  | some cm =>
    let cleared := cm.clear_json_string_credentials
    let cm := cleared.1
    let st := log st "info"
      ("从 CredentialManager 中清除了 " ++ toString cleared.2 ++ " 个先前由 JSON 字符串加载的凭据。")
    -- `if config_value:` (dashboard.py:394) is always true here: the
    -- sentinel return in the caller has already handled the empty string.
    let parsed := parse_multiple_json_credentials s
    let stcm :=
      if ¬ parsed.isEmpty then
        let loaded := cm.load_credentials_from_json_list parsed
        let st :=
          if loaded.2 > 0 then
            log st "info"
              ("从更新的 Google Credentials JSON 中加载了 " ++ toString loaded.2 ++ " 个凭据到 CredentialManager。")
          else log st "warning" "尝试加载 Google Credentials JSON 凭据失败，没有凭据被成功加载。"
        (st, loaded.1)
      else
        match json_loads s with
        | some j =>
          let added := cm.add_credential_from_json j
          let st :=
            if added.2 then log st "info" "作为单个 JSON 对象成功加载了一个凭据。"
            else log st "warning" "作为单个 JSON 对象加载凭据失败。"
          (st, added.1)
        | Option.none =>
          (log st "warning" "Google Credentials JSON 无法作为 JSON 对象解析。", cm)
    let st := stcm.1
    let cm := stcm.2
    let st :=
      if cm.get_total_credentials = 0 then
        log st "warning" "警告：当前没有可用的凭证。Vertex AI 功能可能无法正常工作。"
      else st
    { st with dash := { st.dash with credential_manager := some cm } }
  | Option.none => log st "warning" "CredentialManager 未初始化，无法加载 Google Credentials JSON。"

/-- The best-effort re-initialization of the `google_credentials_json`
branch — the `try` block at dashboard.py:423-438: log the pool size, re-run
`init_vertex_ai`, refresh the model-config cache; any exception is caught
and logged as an error. -/
def googleCredsReinit (d : Deps) (st : AppState) : AppState :=
  let st :=
    match st.dash.credential_manager with
    | Option.none => log st "warning" "重新初始化 Vertex AI 时发现 credential_manager 为 None"
    | some cm =>
      log st "info" ("开始重新初始化 Vertex AI，当前凭证数: " ++ toString cm.get_total_credentials)
  let st := run_blocking_init_vertex d st
  let st := log st "info" "Vertex AI 服务重新初始化完成"
  match d.refresh_models_config_cache with
  | .okTrue => log st "info" "成功刷新模型配置缓存"
  | .okFalse => log st "warning" "刷新模型配置缓存失败，将使用默认模型或现有缓存"
  | .raised m => log st "error" ("重新初始化 Vertex AI 服务时出错: " ++ m)

/-- Credential reload and re-initialization after the settings write in the
`google_credentials_json` branch (dashboard.py:385-438): assign the setting,
invalidate the fallback client, selectively reload the credential manager if
it is initialized, persist, then best-effort reinitialize Vertex and refresh
the model cache. -/
def googleCredsApply (d : Deps) (st : AppState) (s : String) : AppState × BranchResult :=
  let st := { st with settings := { st.settings with GOOGLE_CREDENTIALS_JSON := s } }
  let st := log st "info" "Google Credentials JSON 设置已更新（内容未记录）。"
  let st := reset_global_fallback_client st
  let st := googleCredsReloadPool st s
  let st := save_settings st
  let st := googleCredsReinit d st
  (st, .ok)

/-- The `google_credentials_json` branch (dashboard.py:359-438): string check;
empty or case-insensitive "true" is a no-op sentinel that persists and returns
success early; otherwise the blob must pass the JSON precheck
(dashboard.py:368-383) before being applied. -/
def googleCredentialsJsonBranch (d : Deps) (st : AppState) (v : PyVal) :
    AppState × BranchResult :=
  match v with
  | .str s =>
    if s = "" ∨ pyLower s = "true" then
      let st := log st "info" "Google Credentials JSON 未更新，因为值为空或为 'true'"
      let st := save_settings st
      (st, .retOk "配置项 google_credentials_json 未更新，值为空或为 'true'")
    else
      -- precheck: `if not temp_parsed: json.loads(...)` raising
      -- `JSONDecodeError` yields the 422 (dashboard.py:371-379)
      if (parse_multiple_json_credentials s).isEmpty ∧ (json_loads s).isNone then
        (st, .httpExc 422 "Google Credentials JSON 格式无效。它既不是有效的单个 JSON 对象，也不是逗号分隔的多个 JSON 对象。")
      else googleCredsApply d st s
  | _ => (st, .httpExc 422 "参数类型错误：Google Credentials JSON 应为字符串")

/-- The `elif` chain of `update_config` on `config_key` (dashboard.py:212-461),
in source order; an unrecognized key raises `HTTPException(400, ...)`. -/
def dispatchConfigKey (d : Deps) (st : AppState) (k : String) (v : PyVal) :
    AppState × BranchResult :=
  if k = "max_requests_per_minute" then
    intGtZeroBranch (fun st n => { st with settings := { st.settings with MAX_REQUESTS_PER_MINUTE := n } })
      "每分钟请求限制必须大于0" "每分钟请求限制已更新为：" st v
  else if k = "max_requests_per_day_per_ip" then
    intGtZeroBranch (fun st n => { st with settings := { st.settings with MAX_REQUESTS_PER_DAY_PER_IP := n } })
      "每IP每日请求限制必须大于0" "每IP每日请求限制已更新为：" st v
  else if k = "fake_streaming" then fakeStreamingBranch d st v
  else if k = "enable_vertex_express" then
    boolSimpleBranch (fun st b => { st with settings := { st.settings with ENABLE_VERTEX_EXPRESS := b } })
      "Vertex Express 已更新为：" st v
  else if k = "vertex_express_api_key" then vertexExpressApiKeyBranch d st v
  else if k = "fake_streaming_interval" then fakeStreamingIntervalBranch d st v
  else if k = "random_string" then
    boolSimpleBranch (fun st b => { st with settings := { st.settings with RANDOM_STRING := b } })
      "随机字符串已更新为：" st v
  else if k = "random_string_length" then
    intGtZeroBranch (fun st n => { st with settings := { st.settings with RANDOM_STRING_LENGTH := n } })
      "随机字符串长度必须大于0" "随机字符串长度已更新为：" st v
  else if k = "search_mode" then
    boolSimpleBranch (fun st b => { st with settings := { st.settings with search_mode := b } })
      "联网搜索模式已更新为：" st v
  else if k = "search_prompt" then searchPromptBranch st v
  else if k = "concurrent_requests" then
    intGtZeroBranch (fun st n => { st with settings := { st.settings with CONCURRENT_REQUESTS := n } })
      "并发请求数必须大于0" "并发请求数已更新为：" st v
  else if k = "increase_concurrent_on_failure" then
    intGeZeroBranch (fun st n => { st with settings := { st.settings with INCREASE_CONCURRENT_ON_FAILURE := n } })
      "失败时增加的并发数不能为负数" "失败时增加的并发数已更新为：" st v
  else if k = "max_concurrent_requests" then
    intGtZeroBranch (fun st n => { st with settings := { st.settings with MAX_CONCURRENT_REQUESTS := n } })
      "最大并发请求数必须大于0" "最大并发请求数已更新为：" st v
  else if k = "enable_vertex" then
    boolSimpleBranch (fun st b => { st with settings := { st.settings with ENABLE_VERTEX := b } })
      "Vertex AI 已更新为：" st v
  else if k = "google_credentials_json" then googleCredentialsJsonBranch d st v
  else if k = "max_retry_num" then
    intGtZeroBranch (fun st n => { st with settings := { st.settings with MAX_RETRY_NUM := n } })
      "最大重试次数必须大于0" "最大重试次数已更新为：" st v
  else if k = "max_empty_responses" then
    intGeZeroBranch (fun st n => { st with settings := { st.settings with MAX_EMPTY_RESPONSES := n } })
      "空响应重试次数不能为负数" "空响应重试次数已更新为：" st v
  else (st, .httpExc 400 ("不支持的配置项：" ++ k))

/-- The tail of `update_config` applied to a branch outcome: the shared
`save_settings()` + generic success return (dashboard.py:463-464), the early
success return, a raised `HTTPException` passing through, or any other
exception becoming a 500 (dashboard.py:466-469). -/
def applyDispatchResult (k : String) (out : AppState × BranchResult) :
    AppState × HttpResponse :=
  match out with
  | (st2, BranchResult.ok) =>
    (save_settings st2, ⟨200, .success ("配置项 " ++ k ++ " 已更新")⟩)
  | (st2, BranchResult.retOk msg) => (st2, ⟨200, .success msg⟩)
  | (st2, BranchResult.httpExc c dtl) => (st2, ⟨c, .failure dtl⟩)
  | (st2, BranchResult.pyExc m) => (st2, ⟨500, .failure ("更新失败：" ++ m)⟩)

/-- `POST /api/update-config` (dashboard.py:190-469): password present, a
string, and verified; key present; dispatch on the key; then the shared
response epilogue `applyDispatchResult`. -/
def update_config (d : Deps) (st : AppState) (req : Request) : AppState × HttpResponse :=
  if ¬ pyTruthy req.password then (st, ⟨400, .failure "缺少密码参数"⟩)
  else
    match req.password with
    | PyVal.str p =>
      if ¬ d.verify_web_password p then (st, ⟨401, .failure "密码错误"⟩)
      else if ¬ pyTruthy req.key then (st, ⟨400, .failure "缺少配置项键名"⟩)
      else
        match req.key with
        | PyVal.str k => applyDispatchResult k (dispatchConfigKey d st k req.value)
        | kv =>
          -- a truthy non-string key matches no `elif` and reaches the
          -- `else` of the chain (dashboard.py:460-461)
          (st, ⟨400, .failure ("不支持的配置项：" ++ pyValToString kv)⟩)
    | _ => (st, ⟨422, .failure "密码参数类型错误：应为字符串"⟩)

/-- The dashboard snapshot assembled by `get_dashboard_data`
(dashboard.py:118-164); the fields whose values come from modules outside
`src/` (stats manager, log ring buffers, version info) are taken from the
read-view parameters below. -/
structure DashboardData where
  key_count : Nat
  model_count : Nat
  credentials_count : Nat
  retry_count : Int
  last_24h_calls : Nat
  hourly_calls : Nat
  minute_calls : Nat
  last_24h_tokens : Nat
  hourly_tokens : Nat
  minute_tokens : Nat
  calls_time_series : List Nat
  tokens_time_series : List Nat
  logs : List String
  max_requests_per_minute : Int
  max_requests_per_day_per_ip : Int
  fake_streaming : Bool
  fake_streaming_interval : Rat
  random_string : Bool
  random_string_length : Int
  search_mode : Bool
  search_prompt : String
  cache_entries : Nat
  active_count : Nat
  active_done : Nat
  active_pending : Nat
  concurrent_requests : Int
  increase_concurrent_on_failure : Int
  max_concurrent_requests : Int
  enable_vertex : Bool
  enable_vertex_express : Bool
  vertex_express_api_key : Bool
  google_credentials_json : Bool
  max_retry_num : Int
  max_empty_responses : Int

/-- Read view of `api_stats_manager` and the two log ring buffers (modules
outside `src/`): the values their query methods return at this instant,
after `maybe_cleanup`. -/
structure StatsView where
  last24hCalls : Nat
  hourlyCalls : Nat
  minuteCalls : Nat
  last24hTokens : Nat
  hourlyTokens : Nat
  minuteTokens : Nat
  callsSeries : List Nat
  tokensSeries : List Nat
  recentVertexLogs : List String
  recentLogs : List String

/-- `GET /api/dashboard-data` (dashboard.py:75-164).  The first statements
dereference the module globals `response_cache_manager` and
`active_requests_manager` unconditionally; when a global is `None` the
attribute access raises (`Except.error`), which FastAPI surfaces as a 500
since the handler has no `try`. -/
def get_dashboard_data (sv : StatsView) (st : AppState) :
    Except PyErr DashboardData :=
  -- `await api_stats_manager.maybe_cleanup()`: external, no observable here
  match st.dash.response_cache_manager with
  | Option.none =>
    .error (.attributeError "NoneType object has no attribute clean_expired")
  | some cache =>
    match st.dash.active_requests_manager with
    | Option.none =>
      .error (.attributeError "NoneType object has no attribute clean_completed")
    | some arm =>
      let activeCount := arm.tasks.length
      let activeDone := (arm.tasks.filter (fun b => b)).length
      .ok {
        key_count := 0
        model_count := 0
        credentials_count :=
          match st.dash.credential_manager with
          | some cm => cm.get_total_credentials
          | Option.none => 0
        retry_count := st.settings.MAX_RETRY_NUM
        last_24h_calls := sv.last24hCalls
        hourly_calls := sv.hourlyCalls
        minute_calls := sv.minuteCalls
        last_24h_tokens := sv.last24hTokens
        hourly_tokens := sv.hourlyTokens
        minute_tokens := sv.minuteTokens
        calls_time_series := sv.callsSeries
        tokens_time_series := sv.tokensSeries
        logs := if st.settings.ENABLE_VERTEX then sv.recentVertexLogs else sv.recentLogs
        max_requests_per_minute := st.settings.MAX_REQUESTS_PER_MINUTE
        max_requests_per_day_per_ip := st.settings.MAX_REQUESTS_PER_DAY_PER_IP
        fake_streaming := st.settings.FAKE_STREAMING
        fake_streaming_interval := st.settings.FAKE_STREAMING_INTERVAL
        random_string := st.settings.RANDOM_STRING
        random_string_length := st.settings.RANDOM_STRING_LENGTH
        search_mode := st.settings.search_mode
        search_prompt := st.settings.search_prompt
        cache_entries := cache.cur_cache_num
        active_count := activeCount
        active_done := activeDone
        active_pending := activeCount - activeDone
        concurrent_requests := st.settings.CONCURRENT_REQUESTS
        increase_concurrent_on_failure := st.settings.INCREASE_CONCURRENT_ON_FAILURE
        max_concurrent_requests := st.settings.MAX_CONCURRENT_REQUESTS
        enable_vertex := st.settings.ENABLE_VERTEX
        enable_vertex_express := st.settings.ENABLE_VERTEX_EXPRESS
        vertex_express_api_key := st.settings.VERTEX_EXPRESS_API_KEY ≠ ""
        google_credentials_json := st.settings.GOOGLE_CREDENTIALS_JSON ≠ ""
        max_retry_num := st.settings.MAX_RETRY_NUM
        max_empty_responses := st.settings.MAX_EMPTY_RESPONSES }

/-- The HTTP status observed for `GET /api/dashboard-data`: 200 with the
snapshot, or 500 when the handler raises (FastAPI's default for an unhandled
exception). -/
def dashboardDataStatus (sv : StatsView) (st : AppState) : Nat :=
  match get_dashboard_data sv st with
  | .ok _ => 200
  | .error _ => 500

/-- `init_dashboard_router` (dashboard.py:33-45): stores the first three
arguments into the module globals; `keyMgr` is kept only for call
compatibility and is never used. -/
def init_dashboard_router (st : AppState) (cacheMgr : Option CacheManager)
    (activeReqMgr : Option ActiveRequestsManager)
    (credMgr : Option CredentialManager) (keyMgr : Option CredentialManager) : AppState :=
  let _unused := keyMgr
  { st with dash := {
      response_cache_manager := cacheMgr
      active_requests_manager := activeReqMgr
      credential_manager := credMgr } }

/-- The startup half of `lifespan` in `app/main.py` (main.py:17-48): create a
`CredentialManager()`, load the environment credential blob into it if
present, run `init_vertex_ai`, store the manager in `app.state`, and call
`init_dashboard_router(None, None, None, credential_manager)` — the manager
is passed positionally as the unused `key_mgr` parameter. -/
def mainLifespanStartup (d : Deps) (s : Settings) (cfg : VertexAppConfig) : AppState :=
  let st : AppState := {
    settings := s
    appConfig := cfg
    dash := { response_cache_manager := Option.none
              active_requests_manager := Option.none
              credential_manager := Option.none }
    mainCredentialManager := Option.none
    fallbackClientResets := 0
    savedSettingsCount := 0
    logs := [] }
  let st := log st "info" "正在初始化 Vertex AI..."
  let cm := d.newCredentialManager
  let stcm :=
    if s.GOOGLE_CREDENTIALS_JSON ≠ "" then
      match json_loads s.GOOGLE_CREDENTIALS_JSON with
      | some j =>
        let added := cm.add_credential_from_json j
        (log st "info" "已从环境变量加载 Google Credentials", added.1)
      | Option.none =>
        (log st "error" "加载 Google Credentials 失败", cm)
    else (st, cm)
  let st := stcm.1
  let cm := stcm.2
  let st :=
    if d.startup_init_vertex_ok then log st "info" "Vertex AI 初始化成功"
    else log st "warning" "Vertex AI 初始化失败，部分功能可能不可用"
  let st := { st with mainCredentialManager := some cm }
  init_dashboard_router st Option.none Option.none Option.none (some cm)

/-- The 17 configuration keys recognized by the `elif` chain of
`update_config`, in source order. -/
def supportedConfigKeys : List String :=
  ["max_requests_per_minute", "max_requests_per_day_per_ip", "fake_streaming",
   "enable_vertex_express", "vertex_express_api_key", "fake_streaming_interval",
   "random_string", "random_string_length", "search_mode", "search_prompt",
   "concurrent_requests", "increase_concurrent_on_failure", "max_concurrent_requests",
   "enable_vertex", "google_credentials_json", "max_retry_num", "max_empty_responses"]

/-- A concrete dependency bundle for witnesses: the web password is
"correct", the external constructor yields an empty pool, every external
call succeeds. -/
def cexDeps : Deps :=
  ⟨fun p => p == "correct", ⟨[]⟩, .okTrue, .okTrue, .okTrue, Option.none, true⟩

/-- A concrete dependency bundle whose Vertex re-initialization and
model-cache refresh both raise. -/
def cexDepsRaising : Deps :=
  ⟨fun p => p == "correct", ⟨[]⟩, .raised "boom-init", .raised "boom-refresh",
    .raised "boom-express", Option.none, true⟩

/-- A concrete settings snapshot for witnesses. -/
def cexSettings : Settings :=
  ⟨10, 600, false, false, "", 1, false, 5, false, "prompt", 3, 0, 10, false, "", 3, 5⟩

/-- A concrete `app.vertex.config` snapshot for witnesses. -/
def cexConfig : VertexAppConfig := ⟨[], false, []⟩

/-- A credential entry previously loaded from the environment JSON blob. -/
def cexEnvEntry : CredentialEntry := ⟨[], Provenance.environmentBlob⟩

/-- A credential entry of other provenance. -/
def cexOtherEntry : CredentialEntry := ⟨[], Provenance.other⟩

/-- A concrete process state with no credential manager wired into the
dashboard module. -/
def cexState : AppState :=
  ⟨cexSettings, cexConfig, ⟨Option.none, Option.none, Option.none⟩, Option.none, 0, 0, []⟩

/-- A concrete process state whose dashboard module holds a credential
manager with one environment-blob entry and one entry of other provenance. -/
def cexStateCM : AppState :=
  ⟨cexSettings, cexConfig,
    ⟨Option.none, Option.none, some ⟨[cexEnvEntry, cexOtherEntry]⟩⟩, Option.none, 0, 0, []⟩

/-- The rejection condition of spec §8 for the strictly-positive integer
keys: the value coerces to an integer `<= 0`, or it is a string that does not
parse as an integer. -/
def nonPositiveOrNonNumeric (v : PyVal) : Prop :=
  (∃ n, pyInt v = .ok n ∧ n ≤ 0) ∨ (∃ s, v = .str s ∧ pyIntOfString s = Option.none)

/-- A request value that is neither a string nor a number (nor a bool):
Python `int()` raises `TypeError` on these. -/
def notStringOrNumber (v : PyVal) : Prop :=
  v = PyVal.none ∨ ∃ xs, v = PyVal.list xs

/-! ### Helper lemmas about the state-modifying collaborators -/

@[simp]
theorem log_settings (st : AppState) (l m : String) : (log st l m).settings = st.settings := rfl

@[simp]
theorem log_dash (st : AppState) (l m : String) : (log st l m).dash = st.dash := rfl

@[simp]
theorem log_mainCM (st : AppState) (l m : String) :
    (log st l m).mainCredentialManager = st.mainCredentialManager := rfl

@[simp]
theorem save_settings_settings (st : AppState) : (save_settings st).settings = st.settings := rfl

@[simp]
theorem save_settings_dash (st : AppState) : (save_settings st).dash = st.dash := rfl

@[simp]
theorem save_settings_mainCM (st : AppState) :
    (save_settings st).mainCredentialManager = st.mainCredentialManager := rfl

@[simp]
theorem reset_fallback_settings (st : AppState) :
    (reset_global_fallback_client st).settings = st.settings := rfl

@[simp]
theorem reset_fallback_dash (st : AppState) :
    (reset_global_fallback_client st).dash = st.dash := rfl

@[simp]
theorem reset_fallback_mainCM (st : AppState) :
    (reset_global_fallback_client st).mainCredentialManager = st.mainCredentialManager := rfl

theorem run_blocking_settings (d : Deps) (st : AppState) :
    (run_blocking_init_vertex d st).settings = st.settings := by
  unfold run_blocking_init_vertex
  cases st.dash.credential_manager <;> cases d.init_vertex_ai <;> rfl

theorem run_blocking_dash (d : Deps) (st : AppState) :
    (run_blocking_init_vertex d st).dash = st.dash := by
  unfold run_blocking_init_vertex
  cases st.dash.credential_manager <;> cases d.init_vertex_ai <;> rfl

theorem run_blocking_mainCM (d : Deps) (st : AppState) :
    (run_blocking_init_vertex d st).mainCredentialManager = st.mainCredentialManager := by
  unfold run_blocking_init_vertex
  cases st.dash.credential_manager <;> cases d.init_vertex_ai <;> rfl

/-- With a verified non-empty string password and a non-empty string key,
`update_config` reduces to the dispatch on the key. -/
theorem update_config_dispatch (d : Deps) (st : AppState) (p k : String) (v : PyVal)
    (hp : d.verify_web_password p = true) (hp2 : p ≠ "") (hk : k ≠ "") :
    update_config d st ⟨.str p, .str k, v⟩ =
      applyDispatchResult k (dispatchConfigKey d st k v) := by
  simp [update_config, pyTruthy, hp, hp2, hk]

theorem intGtZeroBranch_rejected (setF : AppState → Int → AppState) (bm lm : String)
    (st : AppState) (v : PyVal) (hv : nonPositiveOrNonNumeric v) :
    ∃ dtl, intGtZeroBranch setF bm lm st v = (st, .httpExc 422 dtl) := by
  rcases hv with ⟨n, hok, hn⟩ | ⟨s, rfl, hs⟩
  · exact ⟨"参数类型错误：" ++ bm, by simp [intGtZeroBranch, hok, hn]⟩
  · exact ⟨"参数类型错误：" ++ ("invalid literal for int() with base 10: " ++ s),
      by simp [intGtZeroBranch, pyInt, hs]⟩

theorem intGtZeroBranch_typeError (setF : AppState → Int → AppState) (bm lm : String)
    (st : AppState) (v : PyVal) (hv : notStringOrNumber v) :
    ∃ m, intGtZeroBranch setF bm lm st v = (st, .pyExc m) := by
  rcases hv with rfl | ⟨xs, rfl⟩
  · exact ⟨"int() argument must be a string, a bytes-like object or a real number, not NoneType",
      by simp [intGtZeroBranch, pyInt]⟩
  · exact ⟨"int() argument must be a string, a bytes-like object or a real number, not list",
      by simp [intGtZeroBranch, pyInt]⟩

theorem intGeZeroBranch_typeError (setF : AppState → Int → AppState) (bm lm : String)
    (st : AppState) (v : PyVal) (hv : notStringOrNumber v) :
    ∃ m, intGeZeroBranch setF bm lm st v = (st, .pyExc m) := by
  rcases hv with rfl | ⟨xs, rfl⟩
  · exact ⟨"int() argument must be a string, a bytes-like object or a real number, not NoneType",
      by simp [intGeZeroBranch, pyInt]⟩
  · exact ⟨"int() argument must be a string, a bytes-like object or a real number, not list",
      by simp [intGeZeroBranch, pyInt]⟩

theorem boolSimpleBranch_string (setF : AppState → Bool → AppState) (lm : String)
    (st : AppState) (s : String) :
    boolSimpleBranch setF lm st (.str s) = (st, .httpExc 422 "参数类型错误：应为布尔值") := rfl

theorem fakeStreamingBranch_string (d : Deps) (st : AppState) (s : String) :
    fakeStreamingBranch d st (.str s) = (st, .httpExc 422 "参数类型错误：应为布尔值") := rfl

/-! ### Dispatch equations at each recognized key -/

theorem dispatchEq_max_requests_per_minute (d : Deps) (st : AppState) (v : PyVal) :
    dispatchConfigKey d st "max_requests_per_minute" v =
      intGtZeroBranch (fun st n => { st with settings := { st.settings with MAX_REQUESTS_PER_MINUTE := n } })
        "每分钟请求限制必须大于0" "每分钟请求限制已更新为：" st v := rfl

theorem dispatchEq_max_requests_per_day_per_ip (d : Deps) (st : AppState) (v : PyVal) :
    dispatchConfigKey d st "max_requests_per_day_per_ip" v =
      intGtZeroBranch (fun st n => { st with settings := { st.settings with MAX_REQUESTS_PER_DAY_PER_IP := n } })
        "每IP每日请求限制必须大于0" "每IP每日请求限制已更新为：" st v := rfl

theorem dispatchEq_fake_streaming (d : Deps) (st : AppState) (v : PyVal) :
    dispatchConfigKey d st "fake_streaming" v = fakeStreamingBranch d st v := rfl

theorem dispatchEq_enable_vertex_express (d : Deps) (st : AppState) (v : PyVal) :
    dispatchConfigKey d st "enable_vertex_express" v =
      boolSimpleBranch (fun st b => { st with settings := { st.settings with ENABLE_VERTEX_EXPRESS := b } })
        "Vertex Express 已更新为：" st v := rfl

theorem dispatchEq_vertex_express_api_key (d : Deps) (st : AppState) (v : PyVal) :
    dispatchConfigKey d st "vertex_express_api_key" v = vertexExpressApiKeyBranch d st v := rfl

theorem dispatchEq_fake_streaming_interval (d : Deps) (st : AppState) (v : PyVal) :
    dispatchConfigKey d st "fake_streaming_interval" v = fakeStreamingIntervalBranch d st v := rfl

theorem dispatchEq_random_string (d : Deps) (st : AppState) (v : PyVal) :
    dispatchConfigKey d st "random_string" v =
      boolSimpleBranch (fun st b => { st with settings := { st.settings with RANDOM_STRING := b } })
        "随机字符串已更新为：" st v := rfl

theorem dispatchEq_random_string_length (d : Deps) (st : AppState) (v : PyVal) :
    dispatchConfigKey d st "random_string_length" v =
      intGtZeroBranch (fun st n => { st with settings := { st.settings with RANDOM_STRING_LENGTH := n } })
        "随机字符串长度必须大于0" "随机字符串长度已更新为：" st v := rfl

theorem dispatchEq_search_mode (d : Deps) (st : AppState) (v : PyVal) :
    dispatchConfigKey d st "search_mode" v =
      boolSimpleBranch (fun st b => { st with settings := { st.settings with search_mode := b } })
        "联网搜索模式已更新为：" st v := rfl

theorem dispatchEq_search_prompt (d : Deps) (st : AppState) (v : PyVal) :
    dispatchConfigKey d st "search_prompt" v = searchPromptBranch st v := rfl

theorem dispatchEq_concurrent_requests (d : Deps) (st : AppState) (v : PyVal) :
    dispatchConfigKey d st "concurrent_requests" v =
      intGtZeroBranch (fun st n => { st with settings := { st.settings with CONCURRENT_REQUESTS := n } })
        "并发请求数必须大于0" "并发请求数已更新为：" st v := rfl

theorem dispatchEq_increase_concurrent_on_failure (d : Deps) (st : AppState) (v : PyVal) :
    dispatchConfigKey d st "increase_concurrent_on_failure" v =
      intGeZeroBranch (fun st n => { st with settings := { st.settings with INCREASE_CONCURRENT_ON_FAILURE := n } })
        "失败时增加的并发数不能为负数" "失败时增加的并发数已更新为：" st v := rfl

theorem dispatchEq_max_concurrent_requests (d : Deps) (st : AppState) (v : PyVal) :
    dispatchConfigKey d st "max_concurrent_requests" v =
      intGtZeroBranch (fun st n => { st with settings := { st.settings with MAX_CONCURRENT_REQUESTS := n } })
        "最大并发请求数必须大于0" "最大并发请求数已更新为：" st v := rfl

theorem dispatchEq_enable_vertex (d : Deps) (st : AppState) (v : PyVal) :
    dispatchConfigKey d st "enable_vertex" v =
      boolSimpleBranch (fun st b => { st with settings := { st.settings with ENABLE_VERTEX := b } })
        "Vertex AI 已更新为：" st v := rfl

theorem dispatchEq_google_credentials_json (d : Deps) (st : AppState) (v : PyVal) :
    dispatchConfigKey d st "google_credentials_json" v = googleCredentialsJsonBranch d st v := rfl

theorem dispatchEq_max_retry_num (d : Deps) (st : AppState) (v : PyVal) :
    dispatchConfigKey d st "max_retry_num" v =
      intGtZeroBranch (fun st n => { st with settings := { st.settings with MAX_RETRY_NUM := n } })
        "最大重试次数必须大于0" "最大重试次数已更新为：" st v := rfl

theorem dispatchEq_max_empty_responses (d : Deps) (st : AppState) (v : PyVal) :
    dispatchConfigKey d st "max_empty_responses" v =
      intGeZeroBranch (fun st n => { st with settings := { st.settings with MAX_EMPTY_RESPONSES := n } })
        "空响应重试次数不能为负数" "空响应重试次数已更新为：" st v := rfl

/-- Lift of a branch-level `HTTPException` to the endpoint response. -/
theorem update_config_httpExc (d : Deps) (st : AppState) (p k : String) (v : PyVal)
    (hp : d.verify_web_password p = true) (hp2 : p ≠ "") (hk0 : k ≠ "")
    (c : Nat) (dtl : String)
    (hd : dispatchConfigKey d st k v = (st, .httpExc c dtl)) :
    update_config d st ⟨.str p, .str k, v⟩ = (st, ⟨c, .failure dtl⟩) := by
  rw [update_config_dispatch d st p k v hp hp2 hk0, hd]
  rfl

/-- Lift of a branch-level uncaught exception to the endpoint 500 response. -/
theorem update_config_pyExc (d : Deps) (st : AppState) (p k : String) (v : PyVal)
    (hp : d.verify_web_password p = true) (hp2 : p ≠ "") (hk0 : k ≠ "")
    (m : String)
    (hd : dispatchConfigKey d st k v = (st, .pyExc m)) :
    update_config d st ⟨.str p, .str k, v⟩ = (st, ⟨500, .failure ("更新失败：" ++ m)⟩) := by
  rw [update_config_dispatch d st p k v hp hp2 hk0, hd]
  rfl

/-- Lift of a branch that falls through to the shared success epilogue. -/
theorem update_config_ok (d : Deps) (st st2 : AppState) (p k : String) (v : PyVal)
    (hp : d.verify_web_password p = true) (hp2 : p ≠ "") (hk0 : k ≠ "")
    (hd : dispatchConfigKey d st k v = (st2, .ok)) :
    update_config d st ⟨.str p, .str k, v⟩ =
      (save_settings st2, ⟨200, .success ("配置项 " ++ k ++ " 已更新")⟩) := by
  rw [update_config_dispatch d st p k v hp hp2 hk0, hd]
  rfl

/-- Lift of a branch that returns early with its own success message. -/
theorem update_config_retOk (d : Deps) (st st2 : AppState) (p k : String) (v : PyVal)
    (hp : d.verify_web_password p = true) (hp2 : p ≠ "") (hk0 : k ≠ "")
    (msg : String)
    (hd : dispatchConfigKey d st k v = (st2, .retOk msg)) :
    update_config d st ⟨.str p, .str k, v⟩ = (st2, ⟨200, .success msg⟩) := by
  rw [update_config_dispatch d st p k v hp hp2 hk0, hd]
  rfl

/-- Shared helper: rejection of the strictly-positive integer keys. -/
theorem updateConfigIntPosKeysReject (d : Deps) (st : AppState) (p k : String) (v : PyVal)
    (hp : d.verify_web_password p = true) (hp2 : p ≠ "")
    (hk : k ∈ ["max_requests_per_minute", "max_requests_per_day_per_ip",
      "random_string_length", "concurrent_requests", "max_concurrent_requests",
      "max_retry_num"])
    (hv : nonPositiveOrNonNumeric v) :
    (update_config d st ⟨.str p, .str k, v⟩).2.status = 422 ∧
    (update_config d st ⟨.str p, .str k, v⟩).1.settings = st.settings := by
  fin_cases hk
  · obtain ⟨dtl, heq⟩ := intGtZeroBranch_rejected _ _ _ st v hv
    rw [update_config_httpExc d st p _ v hp hp2 (by decide) 422 dtl
      ((dispatchEq_max_requests_per_minute d st v).trans heq)]
    exact ⟨rfl, rfl⟩
  · obtain ⟨dtl, heq⟩ := intGtZeroBranch_rejected _ _ _ st v hv
    rw [update_config_httpExc d st p _ v hp hp2 (by decide) 422 dtl
      ((dispatchEq_max_requests_per_day_per_ip d st v).trans heq)]
    exact ⟨rfl, rfl⟩
  · obtain ⟨dtl, heq⟩ := intGtZeroBranch_rejected _ _ _ st v hv
    rw [update_config_httpExc d st p _ v hp hp2 (by decide) 422 dtl
      ((dispatchEq_random_string_length d st v).trans heq)]
    exact ⟨rfl, rfl⟩
  · obtain ⟨dtl, heq⟩ := intGtZeroBranch_rejected _ _ _ st v hv
    rw [update_config_httpExc d st p _ v hp hp2 (by decide) 422 dtl
      ((dispatchEq_concurrent_requests d st v).trans heq)]
    exact ⟨rfl, rfl⟩
  · obtain ⟨dtl, heq⟩ := intGtZeroBranch_rejected _ _ _ st v hv
    rw [update_config_httpExc d st p _ v hp hp2 (by decide) 422 dtl
      ((dispatchEq_max_concurrent_requests d st v).trans heq)]
    exact ⟨rfl, rfl⟩
  · obtain ⟨dtl, heq⟩ := intGtZeroBranch_rejected _ _ _ st v hv
    rw [update_config_httpExc d st p _ v hp hp2 (by decide) 422 dtl
      ((dispatchEq_max_retry_num d st v).trans heq)]
    exact ⟨rfl, rfl⟩

/-- C3: For every integer-typed configuration key with a strictly-positive
bound (`max_requests_per_minute`, `max_requests_per_day_per_ip`,
`random_string_length`, `concurrent_requests`, `max_concurrent_requests`,
`max_retry_num`), a POST /update-config whose value is `<= 0` or a
non-numeric string returns the InvalidType error (HTTP 422) and leaves the
stored settings unchanged. -/
theorem C3_positive_int_keys_reject (d : Deps) (st : AppState) (p k : String) (v : PyVal)
    (hp : d.verify_web_password p = true) (hp2 : p ≠ "")
    (hk : k ∈ ["max_requests_per_minute", "max_requests_per_day_per_ip",
      "random_string_length", "concurrent_requests", "max_concurrent_requests",
      "max_retry_num"])
    (hv : nonPositiveOrNonNumeric v) :
    (update_config d st ⟨.str p, .str k, v⟩).2.status = 422 ∧
    (update_config d st ⟨.str p, .str k, v⟩).1.settings = st.settings :=
  updateConfigIntPosKeysReject d st p k v hp hp2 hk hv

/-- Witness for C3 at a concrete input: key `max_requests_per_minute`,
value `0`, valid password. -/
theorem C3_witness :
    (update_config cexDeps cexState
      ⟨.str "correct", .str "max_requests_per_minute", .int 0⟩).2.status = 422 ∧
    (update_config cexDeps cexState
      ⟨.str "correct", .str "max_requests_per_minute", .int 0⟩).1.settings = cexSettings :=
  C3_positive_int_keys_reject _ _ _ _ _ rfl (by decide) (by decide)
    (Or.inl ⟨0, rfl, le_refl 0⟩)

/-- Shared helper: the boolean keys reject string values. -/
theorem updateConfigBoolKeysRejectString (d : Deps) (st : AppState) (p k s : String)
    (hp : d.verify_web_password p = true) (hp2 : p ≠ "")
    (hk : k ∈ ["fake_streaming", "enable_vertex_express", "random_string",
      "search_mode", "enable_vertex"]) :
    (update_config d st ⟨.str p, .str k, .str s⟩).2.status = 422 ∧
    (update_config d st ⟨.str p, .str k, .str s⟩).1.settings = st.settings := by
  fin_cases hk
  · rw [update_config_httpExc d st p _ _ hp hp2 (by decide) 422 _
      ((dispatchEq_fake_streaming d st _).trans (fakeStreamingBranch_string d st s))]
    exact ⟨rfl, rfl⟩
  · rw [update_config_httpExc d st p _ _ hp hp2 (by decide) 422 _
      ((dispatchEq_enable_vertex_express d st _).trans (boolSimpleBranch_string _ _ st s))]
    exact ⟨rfl, rfl⟩
  · rw [update_config_httpExc d st p _ _ hp hp2 (by decide) 422 _
      ((dispatchEq_random_string d st _).trans (boolSimpleBranch_string _ _ st s))]
    exact ⟨rfl, rfl⟩
  · rw [update_config_httpExc d st p _ _ hp hp2 (by decide) 422 _
      ((dispatchEq_search_mode d st _).trans (boolSimpleBranch_string _ _ st s))]
    exact ⟨rfl, rfl⟩
  · rw [update_config_httpExc d st p _ _ hp hp2 (by decide) 422 _
      ((dispatchEq_enable_vertex d st _).trans (boolSimpleBranch_string _ _ st s))]
    exact ⟨rfl, rfl⟩

/-- C7: For every boolean-typed configuration key (`fake_streaming`,
`enable_vertex_express`, `random_string`, `search_mode`, `enable_vertex`),
a POST /update-config whose value is a string — even "true" — is rejected
as InvalidType (HTTP 422) and the stored settings are unchanged. -/
theorem C7_bool_keys_reject_strings (d : Deps) (st : AppState) (p k s : String)
    (hp : d.verify_web_password p = true) (hp2 : p ≠ "")
    (hk : k ∈ ["fake_streaming", "enable_vertex_express", "random_string",
      "search_mode", "enable_vertex"]) :
    (update_config d st ⟨.str p, .str k, .str s⟩).2.status = 422 ∧
    (update_config d st ⟨.str p, .str k, .str s⟩).1.settings = st.settings :=
  updateConfigBoolKeysRejectString d st p k s hp hp2 hk

/-- Witness for C7 at a concrete input: key `enable_vertex`, value the
string "true", valid password. -/
theorem C7_witness :
    (update_config cexDeps cexState ⟨.str "correct", .str "enable_vertex", .str "true"⟩).2.status = 422 ∧
    (update_config cexDeps cexState ⟨.str "correct", .str "enable_vertex", .str "true"⟩).1.settings = cexSettings :=
  C7_bool_keys_reject_strings _ _ _ _ _ rfl (by decide) (by decide)

/-- Shared helper: the integer keys give 500 on non-string non-number values. -/
theorem updateConfigIntKeysTypeError (d : Deps) (st : AppState) (p k : String) (v : PyVal)
    (hp : d.verify_web_password p = true) (hp2 : p ≠ "")
    (hk : k ∈ ["max_requests_per_minute", "max_requests_per_day_per_ip",
      "random_string_length", "concurrent_requests", "increase_concurrent_on_failure",
      "max_concurrent_requests", "max_retry_num", "max_empty_responses"])
    (hv : notStringOrNumber v) :
    (update_config d st ⟨.str p, .str k, v⟩).2.status = 500 ∧
    (update_config d st ⟨.str p, .str k, v⟩).1.settings = st.settings := by
  fin_cases hk
  · obtain ⟨m, heq⟩ := intGtZeroBranch_typeError _ _ _ st v hv
    rw [update_config_pyExc d st p _ v hp hp2 (by decide) m
      ((dispatchEq_max_requests_per_minute d st v).trans heq)]
    exact ⟨rfl, rfl⟩
  · obtain ⟨m, heq⟩ := intGtZeroBranch_typeError _ _ _ st v hv
    rw [update_config_pyExc d st p _ v hp hp2 (by decide) m
      ((dispatchEq_max_requests_per_day_per_ip d st v).trans heq)]
    exact ⟨rfl, rfl⟩
  · obtain ⟨m, heq⟩ := intGtZeroBranch_typeError _ _ _ st v hv
    rw [update_config_pyExc d st p _ v hp hp2 (by decide) m
      ((dispatchEq_random_string_length d st v).trans heq)]
    exact ⟨rfl, rfl⟩
  · obtain ⟨m, heq⟩ := intGtZeroBranch_typeError _ _ _ st v hv
    rw [update_config_pyExc d st p _ v hp hp2 (by decide) m
      ((dispatchEq_concurrent_requests d st v).trans heq)]
    exact ⟨rfl, rfl⟩
  · obtain ⟨m, heq⟩ := intGeZeroBranch_typeError _ _ _ st v hv
    rw [update_config_pyExc d st p _ v hp hp2 (by decide) m
      ((dispatchEq_increase_concurrent_on_failure d st v).trans heq)]
    exact ⟨rfl, rfl⟩
  · obtain ⟨m, heq⟩ := intGtZeroBranch_typeError _ _ _ st v hv
    rw [update_config_pyExc d st p _ v hp hp2 (by decide) m
      ((dispatchEq_max_concurrent_requests d st v).trans heq)]
    exact ⟨rfl, rfl⟩
  · obtain ⟨m, heq⟩ := intGtZeroBranch_typeError _ _ _ st v hv
    rw [update_config_pyExc d st p _ v hp hp2 (by decide) m
      ((dispatchEq_max_retry_num d st v).trans heq)]
    exact ⟨rfl, rfl⟩
  · obtain ⟨m, heq⟩ := intGeZeroBranch_typeError _ _ _ st v hv
    rw [update_config_pyExc d st p _ v hp hp2 (by decide) m
      ((dispatchEq_max_empty_responses d st v).trans heq)]
    exact ⟨rfl, rfl⟩

/-- C10: For every integer-typed configuration key, a POST /update-config
whose value is neither a string nor a number (e.g. `null` or a list) makes
`int()` raise `TypeError`, which the per-key `except ValueError` does not
catch, so the request returns HTTP 500 InternalError rather than 422, with
the stored settings unchanged. -/
theorem C10_int_keys_type_error_500 (d : Deps) (st : AppState) (p k : String) (v : PyVal)
    (hp : d.verify_web_password p = true) (hp2 : p ≠ "")
    (hk : k ∈ ["max_requests_per_minute", "max_requests_per_day_per_ip",
      "random_string_length", "concurrent_requests", "increase_concurrent_on_failure",
      "max_concurrent_requests", "max_retry_num", "max_empty_responses"])
    (hv : notStringOrNumber v) :
    (update_config d st ⟨.str p, .str k, v⟩).2.status = 500 ∧
    (update_config d st ⟨.str p, .str k, v⟩).1.settings = st.settings :=
  updateConfigIntKeysTypeError d st p k v hp hp2 hk hv

/-- Witness for C10 at a concrete input: key `max_retry_num`, value `null`,
valid password. -/
theorem C10_witness :
    (update_config cexDeps cexState ⟨.str "correct", .str "max_retry_num", PyVal.none⟩).2.status = 500 ∧
    (update_config cexDeps cexState ⟨.str "correct", .str "max_retry_num", PyVal.none⟩).1.settings = cexSettings :=
  C10_int_keys_type_error_500 _ _ _ _ _ rfl (by decide) (by decide) (Or.inl rfl)

/-- The sentinel arm of the `vertex_express_api_key` branch
(dashboard.py:257-258). -/
theorem vertexExpressApiKeyBranch_sentinel (d : Deps) (st : AppState) (s : String)
    (hs : s = "" ∨ pyLower s = "true") :
    vertexExpressApiKeyBranch d st (.str s) =
      (log st "info" "Vertex Express API Key 未更新，因为值为空或为 'true'", .ok) := by
  simp only [vertexExpressApiKeyBranch]
  rw [if_pos hs]

/-- The sentinel arm of the `google_credentials_json` branch
(dashboard.py:363-366). -/
theorem googleCredentialsJsonBranch_sentinel (d : Deps) (st : AppState) (s : String)
    (hs : s = "" ∨ pyLower s = "true") :
    googleCredentialsJsonBranch d st (.str s) =
      (save_settings (log st "info" "Google Credentials JSON 未更新，因为值为空或为 'true'"),
        .retOk "配置项 google_credentials_json 未更新，值为空或为 'true'") := by
  simp only [googleCredentialsJsonBranch]
  rw [if_pos hs]

/-- C8: For the keys `vertex_express_api_key` and `google_credentials_json`,
a POST /update-config whose value is the empty string or the literal
case-insensitive "true" is a no-op sentinel: the stored settings are not
changed and the request returns success (HTTP 200 with a success body). -/
theorem C8_sentinel_values_are_noop (d : Deps) (st : AppState) (p k s : String)
    (hp : d.verify_web_password p = true) (hp2 : p ≠ "")
    (hk : k ∈ ["vertex_express_api_key", "google_credentials_json"])
    (hs : s = "" ∨ pyLower s = "true") :
    (update_config d st ⟨.str p, .str k, .str s⟩).2.status = 200 ∧
    (∃ m, (update_config d st ⟨.str p, .str k, .str s⟩).2.body = .success m) ∧
    (update_config d st ⟨.str p, .str k, .str s⟩).1.settings = st.settings := by
  fin_cases hk
  · rw [update_config_ok d st _ p _ _ hp hp2 (by decide)
      ((dispatchEq_vertex_express_api_key d st _).trans
        (vertexExpressApiKeyBranch_sentinel d st s hs))]
    exact ⟨rfl, ⟨_, rfl⟩, rfl⟩
  · rw [update_config_retOk d st _ p _ _ hp hp2 (by decide) _
      ((dispatchEq_google_credentials_json d st _).trans
        (googleCredentialsJsonBranch_sentinel d st s hs))]
    exact ⟨rfl, ⟨_, rfl⟩, rfl⟩

/-- Witness for C8 at a concrete input: key `vertex_express_api_key`, value
"TRUE", valid password. -/
theorem C8_witness :
    (update_config cexDeps cexState ⟨.str "correct", .str "vertex_express_api_key", .str "TRUE"⟩).2.status = 200 ∧
    (∃ m, (update_config cexDeps cexState ⟨.str "correct", .str "vertex_express_api_key", .str "TRUE"⟩).2.body = .success m) ∧
    (update_config cexDeps cexState ⟨.str "correct", .str "vertex_express_api_key", .str "TRUE"⟩).1.settings = cexSettings :=
  C8_sentinel_values_are_noop _ _ _ _ _ rfl (by decide) (by decide) (Or.inr (by decide))

/-- C1 counterexample: with a valid password, key `google_credentials_json`
and the empty-string value, the request succeeds but the credential manager
is left exactly as it was — in particular the entry previously loaded from
the environment blob (provenance `environmentBlob`) is still present, so the
claimed removal does not happen. -/
theorem C1_counterexample :
    (update_config cexDeps cexStateCM
      ⟨.str "correct", .str "google_credentials_json", .str ""⟩).2.status = 200 ∧
    (update_config cexDeps cexStateCM
      ⟨.str "correct", .str "google_credentials_json", .str ""⟩).1.dash.credential_manager =
      some ⟨[cexEnvEntry, cexOtherEntry]⟩ ∧
    cexEnvEntry.provenance = Provenance.environmentBlob :=
  ⟨rfl, rfl, rfl⟩

/-- C1 (amended): calling POST /update-config with key
`google_credentials_json` and an empty-string value (with a valid password)
is a no-op sentinel: it removes no credential entries, leaves the stored
settings unchanged, and returns success. -/
theorem C1_empty_blob_is_noop (d : Deps) (st : AppState) (p : String)
    (hp : d.verify_web_password p = true) (hp2 : p ≠ "") :
    (update_config d st ⟨.str p, .str "google_credentials_json", .str ""⟩).2.status = 200 ∧
    (update_config d st ⟨.str p, .str "google_credentials_json", .str ""⟩).1.dash.credential_manager =
      st.dash.credential_manager ∧
    (update_config d st ⟨.str p, .str "google_credentials_json", .str ""⟩).1.settings = st.settings := by
  rw [update_config_retOk d st _ p _ _ hp hp2 (by decide) _
    ((dispatchEq_google_credentials_json d st _).trans
      (googleCredentialsJsonBranch_sentinel d st "" (Or.inl rfl)))]
  exact ⟨rfl, rfl, rfl⟩

/-- Witness for the amended C1 at a concrete input. -/
theorem C1_witness :
    (update_config cexDeps cexStateCM
      ⟨.str "correct", .str "google_credentials_json", .str ""⟩).2.status = 200 ∧
    (update_config cexDeps cexStateCM
      ⟨.str "correct", .str "google_credentials_json", .str ""⟩).1.dash.credential_manager =
      cexStateCM.dash.credential_manager ∧
    (update_config cexDeps cexStateCM
      ⟨.str "correct", .str "google_credentials_json", .str ""⟩).1.settings = cexSettings :=
  C1_empty_blob_is_noop cexDeps cexStateCM "correct" rfl (by decide)

/-- Shared helper: rejection of an unparsable credential blob. -/
theorem updateConfigMalformedBlobRejected (d : Deps) (st : AppState) (p s : String)
    (hp : d.verify_web_password p = true) (hp2 : p ≠ "")
    (hs1 : s ≠ "") (hs2 : pyLower s ≠ "true")
    (hm : parse_multiple_json_credentials s = [])
    (hj : json_loads s = Option.none) :
    update_config d st ⟨.str p, .str "google_credentials_json", .str s⟩ =
      (st, ⟨422, .failure "Google Credentials JSON 格式无效。它既不是有效的单个 JSON 对象，也不是逗号分隔的多个 JSON 对象。"⟩) := by
  apply update_config_httpExc d st p _ _ hp hp2 (by decide)
  rw [dispatchEq_google_credentials_json]
  simp only [googleCredentialsJsonBranch]
  rw [if_neg (by simp [hs1, hs2]), if_pos (by simp [hm, hj])]

/-- C6 (amended): if the non-sentinel value supplied for
`google_credentials_json` parses neither as a comma-separated list of JSON
objects nor as any JSON value accepted by `json.loads`, the request fails
with 422 and the whole process state — settings and credential entries
included — is untouched. -/
theorem C6_malformed_blob_rejected (d : Deps) (st : AppState) (p s : String)
    (hp : d.verify_web_password p = true) (hp2 : p ≠ "")
    (hs1 : s ≠ "") (hs2 : pyLower s ≠ "true")
    (hm : parse_multiple_json_credentials s = [])
    (hj : json_loads s = Option.none) :
    update_config d st ⟨.str p, .str "google_credentials_json", .str s⟩ =
      (st, ⟨422, .failure "Google Credentials JSON 格式无效。它既不是有效的单个 JSON 对象，也不是逗号分隔的多个 JSON 对象。"⟩) :=
  updateConfigMalformedBlobRejected d st p s hp hp2 hs1 hs2 hm hj

/-- Witness for the amended C6 at a concrete input: the blob "not json". -/
theorem C6_witness :
    update_config cexDeps cexStateCM
      ⟨.str "correct", .str "google_credentials_json", .str "not json"⟩ =
      (cexStateCM, ⟨422, .failure "Google Credentials JSON 格式无效。它既不是有效的单个 JSON 对象，也不是逗号分隔的多个 JSON 对象。"⟩) :=
  C6_malformed_blob_rejected cexDeps cexStateCM "correct" "not json" rfl
    (by decide) (by decide) (by decide) rfl rfl

/-- C6 counterexample: the value "42" parses as a JSON number — neither a
single JSON object nor a comma-separated list of JSON objects — yet the
request is NOT rejected with 422: it succeeds with 200 and the stored
setting is overwritten with "42". -/
theorem C6_counterexample :
    json_loads "42" = some (JsonVal.num 42) ∧
    parse_multiple_json_credentials "42" = [] ∧
    (update_config cexDeps cexStateCM
      ⟨.str "correct", .str "google_credentials_json", .str "42"⟩).2.status = 200 ∧
    (update_config cexDeps cexStateCM
      ⟨.str "correct", .str "google_credentials_json", .str "42"⟩).1.settings.GOOGLE_CREDENTIALS_JSON = "42" :=
  ⟨rfl, rfl, rfl, rfl⟩

/-- An unrecognized key falls through the whole `elif` chain to the
`HTTPException(400, ...)` at dashboard.py:460-461. -/
theorem dispatch_unsupported (d : Deps) (st : AppState) (k : String) (v : PyVal)
    (hk : k ∉ supportedConfigKeys) :
    dispatchConfigKey d st k v = (st, .httpExc 400 ("不支持的配置项：" ++ k)) := by
  simp only [supportedConfigKeys, List.mem_cons, List.not_mem_nil, or_false, not_or] at hk
  obtain ⟨h1, h2, h3, h4, h5, h6, h7, h8, h9, h10, h11, h12, h13, h14, h15, h16, h17⟩ := hk
  simp only [dispatchConfigKey, if_neg h1, if_neg h2, if_neg h3, if_neg h4, if_neg h5,
    if_neg h6, if_neg h7, if_neg h8, if_neg h9, if_neg h10, if_neg h11, if_neg h12,
    if_neg h13, if_neg h14, if_neg h15, if_neg h16, if_neg h17]

theorem searchPromptBranch_nonstring (st : AppState) (v : PyVal)
    (hv : ∀ t, v ≠ PyVal.str t) :
    searchPromptBranch st v = (st, .httpExc 422 "参数类型错误：应为字符串") := by
  cases v <;> first | rfl | exact absurd rfl (hv _)

theorem vertexExpressApiKeyBranch_nonstring (d : Deps) (st : AppState) (v : PyVal)
    (hv : ∀ t, v ≠ PyVal.str t) :
    vertexExpressApiKeyBranch d st v = (st, .httpExc 422 "参数类型错误：应为字符串") := by
  cases v <;> first | rfl | exact absurd rfl (hv _)

theorem googleCredentialsJsonBranch_nonstring (d : Deps) (st : AppState) (v : PyVal)
    (hv : ∀ t, v ≠ PyVal.str t) :
    googleCredentialsJsonBranch d st v =
      (st, .httpExc 422 "参数类型错误：Google Credentials JSON 应为字符串") := by
  cases v <;> first | rfl | exact absurd rfl (hv _)

/-- C5: POST /update-config returns 400 when the password is missing, 401
when the password is wrong, 400 when the key is missing or unsupported, 422
when the value has the wrong type or the credential blob is malformed, 500
on an internal failure the per-key handler does not catch, and 200 with a
status/message body on success. -/
theorem C5_status_code_mapping (d : Deps) (st : AppState) :
    -- 400 when the password is missing
    (∀ k v, (update_config d st ⟨PyVal.none, k, v⟩).2.status = 400)
    -- 401 when the password is wrong
    ∧ (∀ p k v, p ≠ "" → d.verify_web_password p = false →
        (update_config d st ⟨.str p, k, v⟩).2.status = 401)
    -- 400 when the key is missing
    ∧ (∀ p v, p ≠ "" → d.verify_web_password p = true →
        (update_config d st ⟨.str p, PyVal.none, v⟩).2.status = 400)
    -- 400 when the key is unsupported
    ∧ (∀ p k v, p ≠ "" → d.verify_web_password p = true → k ≠ "" →
        k ∉ supportedConfigKeys →
        (update_config d st ⟨.str p, .str k, v⟩).2.status = 400)
    -- 422: boolean-typed keys reject any string value
    ∧ (∀ p k s, p ≠ "" → d.verify_web_password p = true →
        k ∈ ["fake_streaming", "enable_vertex_express", "random_string",
          "search_mode", "enable_vertex"] →
        (update_config d st ⟨.str p, .str k, .str s⟩).2.status = 422)
    -- 422: string-typed keys reject any non-string value
    ∧ (∀ p k v, p ≠ "" → d.verify_web_password p = true →
        k ∈ ["search_prompt", "vertex_express_api_key", "google_credentials_json"] →
        (∀ t, v ≠ PyVal.str t) →
        (update_config d st ⟨.str p, .str k, v⟩).2.status = 422)
    -- 422: positive-integer keys reject non-numeric strings
    ∧ (∀ p k s, p ≠ "" → d.verify_web_password p = true →
        k ∈ ["max_requests_per_minute", "max_requests_per_day_per_ip",
          "random_string_length", "concurrent_requests", "max_concurrent_requests",
          "max_retry_num"] →
        pyIntOfString s = Option.none →
        (update_config d st ⟨.str p, .str k, .str s⟩).2.status = 422)
    -- 422 when the credential blob is malformed
    ∧ (∀ p s, p ≠ "" → d.verify_web_password p = true → s ≠ "" → pyLower s ≠ "true" →
        parse_multiple_json_credentials s = [] → json_loads s = Option.none →
        (update_config d st ⟨.str p, .str "google_credentials_json", .str s⟩).2.status = 422)
    -- 500 when `int()` raises an uncaught TypeError
    ∧ (∀ p v, p ≠ "" → d.verify_web_password p = true → notStringOrNumber v →
        (update_config d st ⟨.str p, .str "max_retry_num", v⟩).2.status = 500)
    -- 200 with a status/message body on success
    ∧ (∀ p b, p ≠ "" → d.verify_web_password p = true →
        (update_config d st ⟨.str p, .str "enable_vertex", .bool b⟩).2 =
          ⟨200, .success "配置项 enable_vertex 已更新"⟩) := by
  refine ⟨?_, ?_, ?_, ?_, ?_, ?_, ?_, ?_, ?_, ?_⟩
  · intro k v
    simp [update_config, pyTruthy]
  · intro p k v hp2 hw
    simp [update_config, pyTruthy, hp2, hw]
  · intro p v hp2 hp
    simp [update_config, pyTruthy, hp2, hp]
  · intro p k v hp2 hp hk0 hk
    rw [update_config_httpExc d st p k v hp hp2 hk0 400 _ (dispatch_unsupported d st k v hk)]
  · intro p k s hp2 hp hk
    exact (updateConfigBoolKeysRejectString d st p k s hp hp2 hk).1
  · intro p k v hp2 hp hk hv
    fin_cases hk
    · rw [update_config_httpExc d st p _ v hp hp2 (by decide) 422 _
        ((dispatchEq_search_prompt d st v).trans (searchPromptBranch_nonstring st v hv))]
    · rw [update_config_httpExc d st p _ v hp hp2 (by decide) 422 _
        ((dispatchEq_vertex_express_api_key d st v).trans
          (vertexExpressApiKeyBranch_nonstring d st v hv))]
    · rw [update_config_httpExc d st p _ v hp hp2 (by decide) 422 _
        ((dispatchEq_google_credentials_json d st v).trans
          (googleCredentialsJsonBranch_nonstring d st v hv))]
  · intro p k s hp2 hp hk hs
    exact (updateConfigIntPosKeysReject d st p k (.str s) hp hp2 hk
      (Or.inr ⟨s, rfl, hs⟩)).1
  · intro p s hp2 hp hs1 hs2 hm hj
    rw [updateConfigMalformedBlobRejected d st p s hp hp2 hs1 hs2 hm hj]
  · intro p v hp2 hp hv
    exact (updateConfigIntKeysTypeError d st p "max_retry_num" v hp hp2 (by decide) hv).1
  · intro p b hp2 hp
    rw [update_config_ok d st _ p _ _ hp hp2 (by decide)
      ((dispatchEq_enable_vertex d st _).trans rfl)]
    rfl

/-- Witness for C5: one concrete request per status-code family. -/
theorem C5_witness :
    (update_config cexDeps cexState ⟨PyVal.none, .str "enable_vertex", .bool true⟩).2.status = 400
    ∧ (update_config cexDeps cexState ⟨.str "wrong", .str "enable_vertex", .bool true⟩).2.status = 401
    ∧ (update_config cexDeps cexState ⟨.str "correct", PyVal.none, .bool true⟩).2.status = 400
    ∧ (update_config cexDeps cexState ⟨.str "correct", .str "bogus_key", .bool true⟩).2.status = 400
    ∧ (update_config cexDeps cexState ⟨.str "correct", .str "fake_streaming", .str "true"⟩).2.status = 422
    ∧ (update_config cexDeps cexState ⟨.str "correct", .str "search_prompt", .int 3⟩).2.status = 422
    ∧ (update_config cexDeps cexState ⟨.str "correct", .str "concurrent_requests", .str "abc"⟩).2.status = 422
    ∧ (update_config cexDeps cexState ⟨.str "correct", .str "google_credentials_json", .str "nope"⟩).2.status = 422
    ∧ (update_config cexDeps cexState ⟨.str "correct", .str "max_retry_num", .list []⟩).2.status = 500
    ∧ (update_config cexDeps cexState ⟨.str "correct", .str "enable_vertex", .bool true⟩).2 =
        ⟨200, .success "配置项 enable_vertex 已更新"⟩ := by
  obtain ⟨h1, h2, h3, h4, h5, h6, h7, h8, h9, h10⟩ := C5_status_code_mapping cexDeps cexState
  refine ⟨h1 _ _, h2 _ _ _ (by decide) rfl, h3 _ _ (by decide) rfl,
    h4 _ _ _ (by decide) rfl (by decide) (by decide),
    h5 _ _ _ (by decide) rfl (by decide),
    h6 _ _ _ (by decide) rfl (by decide) (fun t h => PyVal.noConfusion h),
    h7 _ _ _ (by decide) rfl (by decide) (by decide),
    h8 _ _ (by decide) rfl (by decide) (by decide) rfl rfl,
    h9 _ _ (by decide) rfl (Or.inr ⟨[], rfl⟩),
    h10 _ _ (by decide) rfl⟩

/-! ### Preservation lemmas: which parts of the state each branch can touch -/

theorem googleCredsReloadPool_settings (st : AppState) (s : String) :
    (googleCredsReloadPool st s).settings = st.settings := by
  unfold googleCredsReloadPool
  rcases hcm : st.dash.credential_manager with _ | cm
  · simp only [hcm]
    rfl
  · simp only [hcm]
    repeat' split
    all_goals rfl

theorem googleCredsReloadPool_mainCM (st : AppState) (s : String) :
    (googleCredsReloadPool st s).mainCredentialManager = st.mainCredentialManager := by
  unfold googleCredsReloadPool
  rcases hcm : st.dash.credential_manager with _ | cm
  · simp only [hcm]
    rfl
  · simp only [hcm]
    repeat' split
    all_goals rfl

theorem googleCredsReloadPool_dash_of_none (st : AppState) (s : String)
    (h : st.dash.credential_manager = Option.none) :
    (googleCredsReloadPool st s).dash = st.dash := by
  unfold googleCredsReloadPool
  rw [h]
  rfl

theorem googleCredsReinit_settings (d : Deps) (st : AppState) :
    (googleCredsReinit d st).settings = st.settings := by
  unfold googleCredsReinit
  rcases hr : d.refresh_models_config_cache <;>
    rcases hcm : st.dash.credential_manager with _ | cm <;>
      simp only [hr, hcm, log_settings, run_blocking_settings]

theorem googleCredsReinit_dash (d : Deps) (st : AppState) :
    (googleCredsReinit d st).dash = st.dash := by
  unfold googleCredsReinit
  rcases hr : d.refresh_models_config_cache <;>
    rcases hcm : st.dash.credential_manager with _ | cm <;>
      simp only [hr, hcm, log_dash, run_blocking_dash]

theorem googleCredsReinit_mainCM (d : Deps) (st : AppState) :
    (googleCredsReinit d st).mainCredentialManager = st.mainCredentialManager := by
  unfold googleCredsReinit
  rcases hr : d.refresh_models_config_cache <;>
    rcases hcm : st.dash.credential_manager with _ | cm <;>
      simp only [hr, hcm, log_mainCM, run_blocking_mainCM]

theorem googleCredsApply_settings (d : Deps) (st : AppState) (s : String) :
    (googleCredsApply d st s).1.settings =
      { st.settings with GOOGLE_CREDENTIALS_JSON := s } := by
  show (googleCredsReinit d _).settings = _
  rw [googleCredsReinit_settings, save_settings_settings, googleCredsReloadPool_settings,
    reset_fallback_settings, log_settings]

theorem googleCredsApply_mainCM (d : Deps) (st : AppState) (s : String) :
    (googleCredsApply d st s).1.mainCredentialManager = st.mainCredentialManager := by
  show (googleCredsReinit d _).mainCredentialManager = _
  rw [googleCredsReinit_mainCM, save_settings_mainCM, googleCredsReloadPool_mainCM,
    reset_fallback_mainCM, log_mainCM]

theorem googleCredsApply_cm_none (d : Deps) (st : AppState) (s : String)
    (h : st.dash.credential_manager = Option.none) :
    (googleCredsApply d st s).1.dash.credential_manager = Option.none := by
  have key : ∀ st2 : AppState, st2.dash.credential_manager = Option.none →
      (googleCredsReinit d (save_settings (googleCredsReloadPool st2 s))).dash.credential_manager
        = Option.none := by
    intro st2 h2
    rw [googleCredsReinit_dash, save_settings_dash, googleCredsReloadPool_dash_of_none st2 s h2]
    exact h2
  exact key _ h

theorem intGtZeroBranch_preserves (setF : AppState → Int → AppState) (bm lm : String)
    (st : AppState) (v : PyVal)
    (hF : ∀ a n, (setF a n).dash = a.dash ∧
      (setF a n).mainCredentialManager = a.mainCredentialManager) :
    (intGtZeroBranch setF bm lm st v).1.dash = st.dash ∧
    (intGtZeroBranch setF bm lm st v).1.mainCredentialManager = st.mainCredentialManager := by
  unfold intGtZeroBranch
  rcases h : pyInt v with e | n <;> try simp only [h]
  · cases e <;> exact ⟨rfl, rfl⟩
  · by_cases hn : n ≤ 0
    · simp only [if_pos hn]
      constructor <;> trivial
    · simp only [if_neg hn]
      exact ⟨(hF st n).1, (hF st n).2⟩

theorem intGeZeroBranch_preserves (setF : AppState → Int → AppState) (bm lm : String)
    (st : AppState) (v : PyVal)
    (hF : ∀ a n, (setF a n).dash = a.dash ∧
      (setF a n).mainCredentialManager = a.mainCredentialManager) :
    (intGeZeroBranch setF bm lm st v).1.dash = st.dash ∧
    (intGeZeroBranch setF bm lm st v).1.mainCredentialManager = st.mainCredentialManager := by
  unfold intGeZeroBranch
  rcases h : pyInt v with e | n <;> try simp only [h]
  · cases e <;> exact ⟨rfl, rfl⟩
  · by_cases hn : n < 0
    · simp only [if_pos hn]
      constructor <;> trivial
    · simp only [if_neg hn]
      exact ⟨(hF st n).1, (hF st n).2⟩

theorem boolSimpleBranch_preserves (setF : AppState → Bool → AppState) (lm : String)
    (st : AppState) (v : PyVal)
    (hF : ∀ a b, (setF a b).dash = a.dash ∧
      (setF a b).mainCredentialManager = a.mainCredentialManager) :
    (boolSimpleBranch setF lm st v).1.dash = st.dash ∧
    (boolSimpleBranch setF lm st v).1.mainCredentialManager = st.mainCredentialManager := by
  unfold boolSimpleBranch
  cases v
  case bool b => exact ⟨(hF st b).1, (hF st b).2⟩
  all_goals exact ⟨rfl, rfl⟩

theorem fakeStreamingBranch_preserves (d : Deps) (st : AppState) (v : PyVal) :
    (fakeStreamingBranch d st v).1.dash = st.dash ∧
    (fakeStreamingBranch d st v).1.mainCredentialManager = st.mainCredentialManager := by
  unfold fakeStreamingBranch
  cases v
  case bool b =>
    rcases hr : d.vertex_update_config_raises <;> simp only [hr] <;> exact ⟨rfl, rfl⟩
  all_goals exact ⟨rfl, rfl⟩

theorem fakeStreamingIntervalBranch_preserves (d : Deps) (st : AppState) (v : PyVal) :
    (fakeStreamingIntervalBranch d st v).1.dash = st.dash ∧
    (fakeStreamingIntervalBranch d st v).1.mainCredentialManager = st.mainCredentialManager := by
  unfold fakeStreamingIntervalBranch
  rcases h : pyFloat v with e | q <;> try simp only [h]
  · cases e <;> exact ⟨rfl, rfl⟩
  · by_cases hq : q ≤ 0
    · simp only [if_pos hq]
      constructor <;> trivial
    · simp only [if_neg hq]
      rcases hr : d.vertex_update_config_raises <;> simp only [hr] <;> exact ⟨rfl, rfl⟩

theorem searchPromptBranch_preserves (st : AppState) (v : PyVal) :
    (searchPromptBranch st v).1.dash = st.dash ∧
    (searchPromptBranch st v).1.mainCredentialManager = st.mainCredentialManager := by
  unfold searchPromptBranch
  cases v <;> exact ⟨rfl, rfl⟩

theorem vertexExpressApiKeyBranch_preserves (d : Deps) (st : AppState) (v : PyVal) :
    (vertexExpressApiKeyBranch d st v).1.dash = st.dash ∧
    (vertexExpressApiKeyBranch d st v).1.mainCredentialManager = st.mainCredentialManager := by
  unfold vertexExpressApiKeyBranch
  cases v
  case str s =>
    by_cases hs : s = "" ∨ pyLower s = "true"
    · simp only [if_pos hs]
      constructor <;> trivial
    · simp only [if_neg hs]
      rcases hr : d.refresh_models_after_express <;> simp only [hr] <;> exact ⟨rfl, rfl⟩
  all_goals exact ⟨rfl, rfl⟩

theorem googleCredentialsJsonBranch_mainCM (d : Deps) (st : AppState) (v : PyVal) :
    (googleCredentialsJsonBranch d st v).1.mainCredentialManager = st.mainCredentialManager := by
  unfold googleCredentialsJsonBranch
  cases v
  case str s =>
    by_cases hs : s = "" ∨ pyLower s = "true"
    · simp [hs]
    · by_cases hpre :
        (parse_multiple_json_credentials s).isEmpty = true ∧ (json_loads s).isNone = true
      · simp [hs, hpre]
      · simp only [if_neg hs, if_neg hpre]
        exact googleCredsApply_mainCM d st s
  all_goals rfl

theorem googleCredentialsJsonBranch_cm_none (d : Deps) (st : AppState) (v : PyVal)
    (h : st.dash.credential_manager = Option.none) :
    (googleCredentialsJsonBranch d st v).1.dash.credential_manager = Option.none := by
  unfold googleCredentialsJsonBranch
  cases v
  case str s =>
    by_cases hs : s = "" ∨ pyLower s = "true"
    · simp [hs, h]
    · by_cases hpre :
        (parse_multiple_json_credentials s).isEmpty = true ∧ (json_loads s).isNone = true
      · simp [hs, hpre, h]
      · simp only [if_neg hs, if_neg hpre]
        exact googleCredsApply_cm_none d st s h
  all_goals exact h

theorem applyDispatchResult_mainCM (k : String) (out : AppState × BranchResult) :
    (applyDispatchResult k out).1.mainCredentialManager = out.1.mainCredentialManager := by
  rcases out with ⟨st2, br⟩
  cases br <;> rfl

theorem applyDispatchResult_dash (k : String) (out : AppState × BranchResult) :
    (applyDispatchResult k out).1.dash = out.1.dash := by
  rcases out with ⟨st2, br⟩
  cases br <;> rfl

theorem dispatchConfigKey_mainCM (d : Deps) (st : AppState) (k : String) (v : PyVal) :
    (dispatchConfigKey d st k v).1.mainCredentialManager = st.mainCredentialManager := by
  by_cases h1 : k = "max_requests_per_minute"
  · subst h1
    rw [dispatchEq_max_requests_per_minute]
    refine (intGtZeroBranch_preserves _ _ _ _ _ ?_).2
    exact fun a n => ⟨rfl, rfl⟩
  by_cases h2 : k = "max_requests_per_day_per_ip"
  · subst h2
    rw [dispatchEq_max_requests_per_day_per_ip]
    refine (intGtZeroBranch_preserves _ _ _ _ _ ?_).2
    exact fun a n => ⟨rfl, rfl⟩
  by_cases h3 : k = "fake_streaming"
  · subst h3
    rw [dispatchEq_fake_streaming]
    exact (fakeStreamingBranch_preserves _ _ _).2
  by_cases h4 : k = "enable_vertex_express"
  · subst h4
    rw [dispatchEq_enable_vertex_express]
    refine (boolSimpleBranch_preserves _ _ _ _ ?_).2
    exact fun a b => ⟨rfl, rfl⟩
  by_cases h5 : k = "vertex_express_api_key"
  · subst h5
    rw [dispatchEq_vertex_express_api_key]
    exact (vertexExpressApiKeyBranch_preserves _ _ _).2
  by_cases h6 : k = "fake_streaming_interval"
  · subst h6
    rw [dispatchEq_fake_streaming_interval]
    exact (fakeStreamingIntervalBranch_preserves _ _ _).2
  by_cases h7 : k = "random_string"
  · subst h7
    rw [dispatchEq_random_string]
    refine (boolSimpleBranch_preserves _ _ _ _ ?_).2
    exact fun a b => ⟨rfl, rfl⟩
  by_cases h8 : k = "random_string_length"
  · subst h8
    rw [dispatchEq_random_string_length]
    refine (intGtZeroBranch_preserves _ _ _ _ _ ?_).2
    exact fun a n => ⟨rfl, rfl⟩
  by_cases h9 : k = "search_mode"
  · subst h9
    rw [dispatchEq_search_mode]
    refine (boolSimpleBranch_preserves _ _ _ _ ?_).2
    exact fun a b => ⟨rfl, rfl⟩
  by_cases h10 : k = "search_prompt"
  · subst h10
    rw [dispatchEq_search_prompt]
    exact (searchPromptBranch_preserves _ _).2
  by_cases h11 : k = "concurrent_requests"
  · subst h11
    rw [dispatchEq_concurrent_requests]
    refine (intGtZeroBranch_preserves _ _ _ _ _ ?_).2
    exact fun a n => ⟨rfl, rfl⟩
  by_cases h12 : k = "increase_concurrent_on_failure"
  · subst h12
    rw [dispatchEq_increase_concurrent_on_failure]
    refine (intGeZeroBranch_preserves _ _ _ _ _ ?_).2
    exact fun a n => ⟨rfl, rfl⟩
  by_cases h13 : k = "max_concurrent_requests"
  · subst h13
    rw [dispatchEq_max_concurrent_requests]
    refine (intGtZeroBranch_preserves _ _ _ _ _ ?_).2
    exact fun a n => ⟨rfl, rfl⟩
  by_cases h14 : k = "enable_vertex"
  · subst h14
    rw [dispatchEq_enable_vertex]
    refine (boolSimpleBranch_preserves _ _ _ _ ?_).2
    exact fun a b => ⟨rfl, rfl⟩
  by_cases h15 : k = "google_credentials_json"
  · subst h15
    rw [dispatchEq_google_credentials_json]
    exact googleCredentialsJsonBranch_mainCM _ _ _
  by_cases h16 : k = "max_retry_num"
  · subst h16
    rw [dispatchEq_max_retry_num]
    refine (intGtZeroBranch_preserves _ _ _ _ _ ?_).2
    exact fun a n => ⟨rfl, rfl⟩
  by_cases h17 : k = "max_empty_responses"
  · subst h17
    rw [dispatchEq_max_empty_responses]
    refine (intGeZeroBranch_preserves _ _ _ _ _ ?_).2
    exact fun a n => ⟨rfl, rfl⟩
  rw [dispatch_unsupported d st k v (by simp [supportedConfigKeys, h1, h2, h3, h4, h5, h6, h7, h8, h9, h10, h11, h12, h13, h14, h15, h16, h17])]

theorem dispatchConfigKey_cm_none (d : Deps) (st : AppState) (k : String) (v : PyVal)
    (h : st.dash.credential_manager = Option.none) :
    (dispatchConfigKey d st k v).1.dash.credential_manager = Option.none := by
  by_cases h1 : k = "max_requests_per_minute"
  · subst h1
    rw [dispatchEq_max_requests_per_minute]
    refine Eq.trans (congrArg (fun x : DashboardGlobals => x.credential_manager)
      (intGtZeroBranch_preserves _ _ _ _ _ ?_).1) h
    exact fun a n => ⟨rfl, rfl⟩
  by_cases h2 : k = "max_requests_per_day_per_ip"
  · subst h2
    rw [dispatchEq_max_requests_per_day_per_ip]
    refine Eq.trans (congrArg (fun x : DashboardGlobals => x.credential_manager)
      (intGtZeroBranch_preserves _ _ _ _ _ ?_).1) h
    exact fun a n => ⟨rfl, rfl⟩
  by_cases h3 : k = "fake_streaming"
  · subst h3
    rw [dispatchEq_fake_streaming]
    rw [(fakeStreamingBranch_preserves _ _ _).1]
    exact h
  by_cases h4 : k = "enable_vertex_express"
  · subst h4
    rw [dispatchEq_enable_vertex_express]
    refine Eq.trans (congrArg (fun x : DashboardGlobals => x.credential_manager)
      (boolSimpleBranch_preserves _ _ _ _ ?_).1) h
    exact fun a b => ⟨rfl, rfl⟩
  by_cases h5 : k = "vertex_express_api_key"
  · subst h5
    rw [dispatchEq_vertex_express_api_key]
    rw [(vertexExpressApiKeyBranch_preserves _ _ _).1]
    exact h
  by_cases h6 : k = "fake_streaming_interval"
  · subst h6
    rw [dispatchEq_fake_streaming_interval]
    rw [(fakeStreamingIntervalBranch_preserves _ _ _).1]
    exact h
  by_cases h7 : k = "random_string"
  · subst h7
    rw [dispatchEq_random_string]
    refine Eq.trans (congrArg (fun x : DashboardGlobals => x.credential_manager)
      (boolSimpleBranch_preserves _ _ _ _ ?_).1) h
    exact fun a b => ⟨rfl, rfl⟩
  by_cases h8 : k = "random_string_length"
  · subst h8
    rw [dispatchEq_random_string_length]
    refine Eq.trans (congrArg (fun x : DashboardGlobals => x.credential_manager)
      (intGtZeroBranch_preserves _ _ _ _ _ ?_).1) h
    exact fun a n => ⟨rfl, rfl⟩
  by_cases h9 : k = "search_mode"
  · subst h9
    rw [dispatchEq_search_mode]
    refine Eq.trans (congrArg (fun x : DashboardGlobals => x.credential_manager)
      (boolSimpleBranch_preserves _ _ _ _ ?_).1) h
    exact fun a b => ⟨rfl, rfl⟩
  by_cases h10 : k = "search_prompt"
  · subst h10
    rw [dispatchEq_search_prompt]
    rw [(searchPromptBranch_preserves _ _).1]
    exact h
  by_cases h11 : k = "concurrent_requests"
  · subst h11
    rw [dispatchEq_concurrent_requests]
    refine Eq.trans (congrArg (fun x : DashboardGlobals => x.credential_manager)
      (intGtZeroBranch_preserves _ _ _ _ _ ?_).1) h
    exact fun a n => ⟨rfl, rfl⟩
  by_cases h12 : k = "increase_concurrent_on_failure"
  · subst h12
    rw [dispatchEq_increase_concurrent_on_failure]
    refine Eq.trans (congrArg (fun x : DashboardGlobals => x.credential_manager)
      (intGeZeroBranch_preserves _ _ _ _ _ ?_).1) h
    exact fun a n => ⟨rfl, rfl⟩
  by_cases h13 : k = "max_concurrent_requests"
  · subst h13
    rw [dispatchEq_max_concurrent_requests]
    refine Eq.trans (congrArg (fun x : DashboardGlobals => x.credential_manager)
      (intGtZeroBranch_preserves _ _ _ _ _ ?_).1) h
    exact fun a n => ⟨rfl, rfl⟩
  by_cases h14 : k = "enable_vertex"
  · subst h14
    rw [dispatchEq_enable_vertex]
    refine Eq.trans (congrArg (fun x : DashboardGlobals => x.credential_manager)
      (boolSimpleBranch_preserves _ _ _ _ ?_).1) h
    exact fun a b => ⟨rfl, rfl⟩
  by_cases h15 : k = "google_credentials_json"
  · subst h15
    rw [dispatchEq_google_credentials_json]
    exact googleCredentialsJsonBranch_cm_none _ _ _ h
  by_cases h16 : k = "max_retry_num"
  · subst h16
    rw [dispatchEq_max_retry_num]
    refine Eq.trans (congrArg (fun x : DashboardGlobals => x.credential_manager)
      (intGtZeroBranch_preserves _ _ _ _ _ ?_).1) h
    exact fun a n => ⟨rfl, rfl⟩
  by_cases h17 : k = "max_empty_responses"
  · subst h17
    rw [dispatchEq_max_empty_responses]
    refine Eq.trans (congrArg (fun x : DashboardGlobals => x.credential_manager)
      (intGeZeroBranch_preserves _ _ _ _ _ ?_).1) h
    exact fun a n => ⟨rfl, rfl⟩
  rw [dispatch_unsupported d st k v (by simp [supportedConfigKeys, h1, h2, h3, h4, h5, h6, h7, h8, h9, h10, h11, h12, h13, h14, h15, h16, h17])]
  exact h

theorem update_config_mainCM (d : Deps) (st : AppState) (req : Request) :
    (update_config d st req).1.mainCredentialManager = st.mainCredentialManager := by
  unfold update_config
  repeat' split
  all_goals try rfl
  all_goals rw [applyDispatchResult_mainCM]
  all_goals exact dispatchConfigKey_mainCM d st _ _

theorem update_config_cm_none (d : Deps) (st : AppState) (req : Request)
    (h : st.dash.credential_manager = Option.none) :
    (update_config d st req).1.dash.credential_manager = Option.none := by
  unfold update_config
  repeat' split
  all_goals try exact h
  all_goals rw [applyDispatchResult_dash]
  all_goals exact dispatchConfigKey_cm_none d st _ _ h

/-- After `mainLifespanStartup`, the dashboard module's `credential_manager`
global is `None`: main.py:48 passes the real manager positionally as the
unused `key_mgr` parameter, leaving `cred_mgr` at `None`. -/
theorem mainLifespanStartup_dash_cm (d : Deps) (s : Settings) (cfg : VertexAppConfig) :
    (mainLifespanStartup d s cfg).dash.credential_manager = Option.none := rfl

/-- After `mainLifespanStartup`, the real credential manager does exist — it
is stored in `app.state` (`mainCredentialManager`). -/
theorem mainLifespanStartup_mainCM (d : Deps) (s : Settings) (cfg : VertexAppConfig) :
    ∃ cm, (mainLifespanStartup d s cfg).mainCredentialManager = some cm := ⟨_, rfl⟩

/-- C9: After the startup sequence in main.py completes, the dashboard
module's `credential_manager` global is `None` (the real manager having been
passed as the deliberately-unused `key_mgr` argument and stored only in
`app.state`), it stays `None` across every `update_config` request, and no
`update_config` request ever touches the real manager held by main — so no
POST /update-config to `google_credentials_json` ever clears or loads
credential entries in the pool. -/
theorem C9_dashboard_credential_manager_stays_none :
    (∀ d s cfg, (mainLifespanStartup d s cfg).dash.credential_manager = Option.none
      ∧ ∃ cm, (mainLifespanStartup d s cfg).mainCredentialManager = some cm)
    ∧ (∀ d st req, st.dash.credential_manager = Option.none →
        (update_config d st req).1.dash.credential_manager = Option.none)
    ∧ (∀ d st req,
        (update_config d st req).1.mainCredentialManager = st.mainCredentialManager) :=
  ⟨fun d s cfg => ⟨mainLifespanStartup_dash_cm d s cfg, mainLifespanStartup_mainCM d s cfg⟩,
   fun d st req h => update_config_cm_none d st req h,
   fun d st req => update_config_mainCM d st req⟩

/-- Witness for C9 at a concrete state: start up the process with concrete
settings and then POST a non-sentinel `google_credentials_json` update. -/
theorem C9_witness :
    (mainLifespanStartup cexDeps cexSettings cexConfig).dash.credential_manager = Option.none ∧
    (update_config cexDeps (mainLifespanStartup cexDeps cexSettings cexConfig)
      ⟨.str "correct", .str "google_credentials_json", .str "\x7b\x7d"⟩).1.dash.credential_manager = Option.none ∧
    (update_config cexDeps (mainLifespanStartup cexDeps cexSettings cexConfig)
      ⟨.str "correct", .str "google_credentials_json", .str "\x7b\x7d"⟩).1.mainCredentialManager =
      (mainLifespanStartup cexDeps cexSettings cexConfig).mainCredentialManager := by
  obtain ⟨h1, h2, h3⟩ := C9_dashboard_credential_manager_stays_none
  exact ⟨(h1 cexDeps cexSettings cexConfig).1,
    h2 cexDeps _ _ (h1 cexDeps cexSettings cexConfig).1,
    h3 cexDeps _ _⟩

/-! ### Logging lemmas for the best-effort reinitialization -/

theorem log_logs (st : AppState) (l m : String) :
    (log st l m).logs = st.logs ++ [(l, m)] := rfl

theorem save_settings_logs (st : AppState) : (save_settings st).logs = st.logs := rfl

theorem mem_logs_log (st : AppState) (l m : String) (x : String × String)
    (hx : x ∈ st.logs) : x ∈ (log st l m).logs := by
  simp only [log_logs, List.mem_append]
  exact Or.inl hx

/-- When `init_vertex_ai` raises, `run_blocking_init_vertex` catches the
exception and logs it (dashboard.py:71-72). -/
theorem run_blocking_raised_mem (d : Deps) (st : AppState) (m : String)
    (h : d.init_vertex_ai = .raised m) :
    ("error", "执行 run_blocking_init_vertex 时出错: " ++ m) ∈
      (run_blocking_init_vertex d st).logs := by
  unfold run_blocking_init_vertex
  rcases hcm : st.dash.credential_manager with _ | cm <;> simp [h, log]

theorem googleCredsReinit_mem_init_raised (d : Deps) (st : AppState) (m : String)
    (h : d.init_vertex_ai = .raised m) :
    ("error", "执行 run_blocking_init_vertex 时出错: " ++ m) ∈
      (googleCredsReinit d st).logs := by
  unfold googleCredsReinit
  rcases hr : d.refresh_models_config_cache <;>
    exact mem_logs_log _ _ _ _ (mem_logs_log _ _ _ _ (run_blocking_raised_mem d _ m h))

/-- When `refresh_models_config_cache` raises, the `except` at
dashboard.py:437-438 catches it and logs the error. -/
theorem googleCredsReinit_mem_refresh_raised (d : Deps) (st : AppState) (m : String)
    (h : d.refresh_models_config_cache = .raised m) :
    ("error", "重新初始化 Vertex AI 服务时出错: " ++ m) ∈ (googleCredsReinit d st).logs := by
  unfold googleCredsReinit
  rw [h]
  simp [log]

theorem googleCredsApply_mem_init_raised (d : Deps) (st : AppState) (s m : String)
    (h : d.init_vertex_ai = .raised m) :
    ("error", "执行 run_blocking_init_vertex 时出错: " ++ m) ∈
      (googleCredsApply d st s).1.logs :=
  googleCredsReinit_mem_init_raised d _ m h

theorem googleCredsApply_mem_refresh_raised (d : Deps) (st : AppState) (s m : String)
    (h : d.refresh_models_config_cache = .raised m) :
    ("error", "重新初始化 Vertex AI 服务时出错: " ++ m) ∈
      (googleCredsApply d st s).1.logs :=
  googleCredsReinit_mem_refresh_raised d _ m h

/-- A non-sentinel value that passes the JSON precheck reaches
`googleCredsApply` (dashboard.py:385 onward). -/
theorem googleCredentialsJsonBranch_apply (d : Deps) (st : AppState) (s : String)
    (hs1 : s ≠ "") (hs2 : pyLower s ≠ "true")
    (hpre : ¬((parse_multiple_json_credentials s).isEmpty = true ∧
      (json_loads s).isNone = true)) :
    googleCredentialsJsonBranch d st (.str s) = googleCredsApply d st s := by
  simp only [googleCredentialsJsonBranch]
  rw [if_neg (by simp [hs1, hs2]), if_neg hpre]

/-- C4: for every successful POST /update-config to `google_credentials_json`
(non-sentinel value passing the JSON precheck), whatever the outcomes of the
triggered Vertex re-initialization and model-cache refresh — including both
raising — the request returns HTTP 200 with a success body, the
already-applied settings write is kept, and a raised failure is logged. -/
theorem C4_side_effect_failure_kept_success (d : Deps) (st : AppState) (p s : String)
    (hp : d.verify_web_password p = true) (hp2 : p ≠ "")
    (hs1 : s ≠ "") (hs2 : pyLower s ≠ "true")
    (hpre : ¬((parse_multiple_json_credentials s).isEmpty = true ∧
      (json_loads s).isNone = true)) :
    (update_config d st ⟨.str p, .str "google_credentials_json", .str s⟩).2.status = 200 ∧
    (∃ m, (update_config d st ⟨.str p, .str "google_credentials_json", .str s⟩).2.body =
      RespBody.success m) ∧
    (update_config d st ⟨.str p, .str "google_credentials_json", .str s⟩).1.settings =
      { st.settings with GOOGLE_CREDENTIALS_JSON := s } ∧
    (∀ m, d.init_vertex_ai = .raised m →
      ("error", "执行 run_blocking_init_vertex 时出错: " ++ m) ∈
        (update_config d st ⟨.str p, .str "google_credentials_json", .str s⟩).1.logs) ∧
    (∀ m, d.refresh_models_config_cache = .raised m →
      ("error", "重新初始化 Vertex AI 服务时出错: " ++ m) ∈
        (update_config d st ⟨.str p, .str "google_credentials_json", .str s⟩).1.logs) := by
  have hd : dispatchConfigKey d st "google_credentials_json" (.str s) =
      ((googleCredsApply d st s).1, BranchResult.ok) :=
    (dispatchEq_google_credentials_json d st _).trans
      ((googleCredentialsJsonBranch_apply d st s hs1 hs2 hpre).trans rfl)
  rw [update_config_ok d st _ p _ _ hp hp2 (by decide) hd]
  exact ⟨rfl, ⟨_, rfl⟩, googleCredsApply_settings d st s,
    fun m hm => googleCredsApply_mem_init_raised d st s m hm,
    fun m hm => googleCredsApply_mem_refresh_raised d st s m hm⟩

/-- Witness for C4 at a concrete input: valid password, blob "\x7b\x7d", with
dependencies whose re-initialization and model-cache refresh both raise. -/
theorem C4_witness :
    (update_config cexDepsRaising cexStateCM
      ⟨.str "correct", .str "google_credentials_json", .str "\x7b\x7d"⟩).2.status = 200 ∧
    (∃ m, (update_config cexDepsRaising cexStateCM
      ⟨.str "correct", .str "google_credentials_json", .str "\x7b\x7d"⟩).2.body =
        RespBody.success m) ∧
    (update_config cexDepsRaising cexStateCM
      ⟨.str "correct", .str "google_credentials_json", .str "\x7b\x7d"⟩).1.settings =
      { cexSettings with GOOGLE_CREDENTIALS_JSON := "\x7b\x7d" } ∧
    ("error", "执行 run_blocking_init_vertex 时出错: " ++ "boom-init") ∈
      (update_config cexDepsRaising cexStateCM
        ⟨.str "correct", .str "google_credentials_json", .str "\x7b\x7d"⟩).1.logs ∧
    ("error", "重新初始化 Vertex AI 服务时出错: " ++ "boom-refresh") ∈
      (update_config cexDepsRaising cexStateCM
        ⟨.str "correct", .str "google_credentials_json", .str "\x7b\x7d"⟩).1.logs := by
  obtain ⟨h1, h2, h3, h4, h5⟩ := C4_side_effect_failure_kept_success cexDepsRaising cexStateCM
    "correct" "\x7b\x7d" rfl (by decide) (by decide) (by decide) (by decide)
  exact ⟨h1, h2, h3, h4 "boom-init" rfl, h5 "boom-refresh" rfl⟩

/-- C2 (the code diverges from the claim): in every process state produced by
the `lifespan` startup of main.py — which passes `None` for both the cache
manager and the active-request manager — `GET /dashboard-data` dereferences
`response_cache_manager.clean_expired` on `None` and raises, so the endpoint
returns HTTP 500, never the claimed 200 snapshot. -/
theorem C2_dashboard_data_500_after_startup (d : Deps) (s : Settings)
    (cfg : VertexAppConfig) (sv : StatsView) :
    dashboardDataStatus sv (mainLifespanStartup d s cfg) = 500 := rfl

end StoryBox
